import Mathlib

/-!
# STM32MP1 SP_MIN platform setup (`plat/st/stm32mp1/sp_min/sp_min_setup.c`)

A shallow embedding of the secure-world early-boot orchestrator.

* Machine words (`u_register_t`, `uint32_t`) are natural numbers; where the C
  arithmetic can wrap (the `TZMA1_SECURE_RANGE` macro and the `CASSERT`
  expressions) the reduction modulo `2^32` is explicit.
* The program state (`World`) holds the static `bl33_image_ep_info`, the `SCR`
  register, the memory of the previous boot stage, and the ordered trace of every
  call made to an external driver or to the log.
* A function of the program is a state transformer `M α`; it either returns
  (`Res.ok`), stops in `panic()` / a failed `assert` (`Res.halt`), or performs an
  invalid memory access (`Res.fault`).
* Return codes of the external drivers are inputs (`Collab`); constants of headers
  (`platform_def.h`, `stm32mp1_def.h`, driver headers) are inputs (`platform_def`).
-/

namespace Stm32mp1SpMin

/-! ## Data model -/

/-- Modelled from the spec: the declaration of `aapcs32_params_t` is outside this
translation unit; the spec gives an entry point at least three argument slots, the
code names `arg0`, `arg1`, `arg2`. -/
structure aapcs32_params where
  arg0 : Nat
  arg1 : Nat
  arg2 : Nat
  arg3 : Nat
deriving DecidableEq, Repr

/-- Modelled from the spec: the declaration of `entry_point_info_t` is outside this
translation unit; the spec describes it as program counter, argument slots and
state flags. -/
structure entry_point_info where
  pc : Nat
  spsr : Nat
  args : aapcs32_params
deriving DecidableEq, Repr

/-- Modelled from the spec: the declaration of `param_header_t` is outside this
translation unit; the header declares a parameter-block type and a version. -/
structure param_header where
  type : Nat
  version : Nat
deriving DecidableEq, Repr

/-- Modelled from the spec: the declaration of `bl_params_node_t` is outside this
translation unit; a node of the singly-linked handoff sequence carries an image
id and entry point information. The `ep_info` pointer of the C node is
represented by the record it points to; the `next_params_info` pointer is the
tail of the list holding the node. -/
structure bl_params_node where
  image_id : Nat
  ep_info : entry_point_info
deriving DecidableEq, Repr

/-- Modelled from the spec: the declaration of `bl_params_t` is outside this
translation unit; the block handed over by BL2 is a header and a singly-linked
sequence of nodes. `head == NULL` is the empty list. -/
structure bl_params where
  h : param_header
  head : List bl_params_node
deriving DecidableEq, Repr

/-- Non-secure SYSRAM region; present only when `STM32MP_NS_SYSRAM_BASE` is
defined. -/
structure ns_sysram where
  STM32MP_NS_SYSRAM_BASE : Nat
  STM32MP_NS_SYSRAM_SIZE : Nat
deriving DecidableEq, Repr

/-- Constants that the translation unit takes from headers. -/
structure platform_def where
  INT_TAMP1 : Nat
  INT_TAMP2 : Nat
  INT_TAMP3 : Nat
  INT_TAMP4 : Nat
  TAMP_ENABLE : Nat
  TAMP_BKP_SEC_NUMBER : Nat
  TAMP_REGS_IT_SECURE : Nat
  INT_ID_MASK : Nat
  STM32MP1_IRQ_TZC400 : Nat
  STM32MP1_IRQ_TAMPSERRS : Nat
  STM32MP1_IRQ_AXIERRIRQ : Nat
  STM32MP1_TZC_BASE : Nat
  STM32MP_SYSRAM_BASE : Nat
  STM32MP_SYSRAM_SIZE : Nat
  STM32MP_SEC_SYSRAM_BASE : Nat
  STM32MP_SEC_SYSRAM_SIZE : Nat
  NS_SYSRAM : Option ns_sysram
  STM32MP1_ETZPC_TZMA_ALL_SECURE : Nat
  STM32MP1_ETZPC_TZMA_ROM : Nat
  STM32MP1_ETZPC_TZMA_SYSRAM : Nat
  PARAM_BL_PARAMS : Nat
  VERSION_2 : Nat
  BL33_IMAGE_ID : Nat
  STM32MP_USE_STM32IMAGE : Bool
  STM32MP_DTB_BASE : Nat
  SCR_AW_BIT : Nat
  BL_CODE_BASE : Nat
  BL_CODE_END : Nat
  MT_CODE : Nat
  MT_SECURE : Nat

/-- Return codes of the external drivers, one per call site. -/
structure Collab where
  dt_open_and_check : Int
  bsec_probe : Int
  stm32mp1_clk_probe : Int
  etzpc_init : Int
  dt_pmic_status : Int
  regulator_core_config : Int
  usb_dt_pmic_status : Int
  usb_phy_regulator_is_null : Bool
  regulator_is_enabled : Int
  regulator_disable : Int
  usb_phy_reg_name : String
  stm32_rtc_init : Int
  stm32_rng_init : Int
  stm32_tamp_init : Int
  stm32_tamp_set_secure_bkpregs : Int
  stm32_tamp_set_config : Int
  stm32_iwdg_init : Int

/-- One argument of a formatted log line. -/
inductive LogArg where
  | num (v : Int)
  | str (s : Option String)
deriving DecidableEq, Repr

/-- Callbacks that this file hands to drivers. -/
inductive Callback where
  | stm32mp1_tamper_action
deriving DecidableEq, Repr

/-- Externally visible actions, in the order they are performed. -/
inductive Event where
  | ERROR (fmt : String) (args : List LogArg)
  | WARN (fmt : String) (args : List LogArg)
  | stm32mp_setup_early_console
  | write_scr (v : Nat)
  | mmap_add_region (base_pa base_va size attr : Nat)
  | configure_mmu
  | dt_open_and_check (dt_addr : Nat)
  | bsec_probe
  | stm32mp1_clk_probe
  | stm32mp_uart_console_setup
  | etzpc_init
  | etzpc_configure_tzma (tzma value : Nat)
  | generic_delay_timer_init
  | dt_pmic_status
  | initialize_pmic
  | fixed_regulator_register
  | regulator_core_config
  | dt_get_usb_phy_regulator
  | regulator_is_enabled
  | regulator_disable
  | tzc400_init (base : Nat)
  | tzc400_it_handler
  | stm32_tamp_it_handler
  | stm32mp1_clk_mcuss_protect (enable : Bool)
  | stm32_rtc_init
  | stm32_rng_init
  | stm32_tamp_init
  | stm32_tamp_set_secure_bkpregs (nb_zone1_regs nb_zone2_regs : Nat)
  | stm32_tamp_configure_secure_access (mode : Nat)
  | stm32_tamp_configure_internal (id mode : Nat) (callback : Callback)
  | stm32_tamp_set_config
  | stm32_rtc_set_tamper_timestamp
  | stm32mp_gic_init
  | stm32_iwdg_init
  | stm32mp_lock_periph_registering
  | stm32mp1_init_scmi_server
  | regulator_core_cleanup
deriving DecidableEq, Repr

/-- Program state. -/
structure World where
  bl33_image_ep_info : entry_point_info
  scr : Nat
  bl2_mem : Nat → bl_params
  trace : List Event

/-! ## Execution model -/

/-- Result of running a function of the program. -/
inductive Res (α : Type) where
  | ok (a : α) (w : World)
  | halt (w : World)
  | fault (w : World)

/-- State reached by a run, however it ended. -/
def Res.world {α : Type} : Res α → World
  | .ok _ w => w
  | .halt w => w
  | .fault w => w

/-- Whether the run stopped in `panic()` or a failed `assert`. -/
def Res.halted {α : Type} : Res α → Bool
  | .halt _ => true
  | _ => false

/-- Whether the run came back to its caller. -/
def Res.returned {α : Type} : Res α → Bool
  | .ok _ _ => true
  | _ => false

/-- Whether the run performed an invalid memory access. -/
def Res.faulted {α : Type} : Res α → Bool
  | .fault _ => true
  | _ => false

/-- State transformer with halting. -/
def M (α : Type) : Type := World → Res α

/-- Sequencing: a halted or faulted run executes nothing further. -/
def M.bind {α β : Type} (m : M α) (f : α → M β) : M β := fun w =>
  match m w with
  | .ok a w1 => f a w1
  | .halt w1 => .halt w1
  | .fault w1 => .fault w1

instance : Monad M where
  pure a := fun w => .ok a w
  bind := M.bind

/-- Modelled from the spec: the drivers are outside this translation unit and
are black boxes that report success or failure; a call is recorded in the trace
and its return code is read from `Collab` at the call site. -/
def call (e : Event) : M Unit := fun w =>
  .ok () { w with trace := w.trace ++ [e] }

/-- Modelled from the spec: `panic()` is defined outside this translation unit;
a fatal condition is an unrecoverable stop, no further code runs. -/
def panic {α : Type} : M α := fun w => .halt w

/-- Modelled from the spec: the `assert` macro is declared outside this
translation unit; the spec makes a failed handoff check fatal, so a false
condition halts. -/
def assert (c : Bool) : M Unit := fun w =>
  if c then .ok () w else .halt w

/-- Read of a C array element; an index past the end is an invalid access. -/
def array_read {α : Type} (a : List α) (i : Nat) : M α := fun w =>
  match a[i]? with
  | some x => .ok x w
  | none => .fault w

/-- Modelled from the spec: the `ERROR` macro is defined outside this translation
unit; it emits a log line at ERROR severity. -/
def ERROR (fmt : String) (args : List LogArg) : M Unit := call (.ERROR fmt args)

/-- Modelled from the spec: the `WARN` macro is defined outside this translation
unit; it emits a log line at WARN severity. -/
def WARN (fmt : String) (args : List LogArg) : M Unit := call (.WARN fmt args)

/-- Read of the `SCR` register. -/
def read_scr : M Nat := fun w => .ok w.scr w

/-- Write of the `SCR` register. -/
def write_scr (v : Nat) : M Unit := fun w =>
  .ok () { w with scr := v, trace := w.trace ++ [.write_scr v] }

/-- Read of the parameter block that a non-null `arg0` points to. -/
def read_bl_params (arg0 : Nat) : M bl_params := fun w => .ok (w.bl2_mem arg0) w

/-- Read of the static `bl33_image_ep_info`. -/
def get_bl33_image_ep_info : M entry_point_info := fun w =>
  .ok w.bl33_image_ep_info w

/-- Write of the static `bl33_image_ep_info`. -/
def set_bl33_image_ep_info (e : entry_point_info) : M Unit := fun w =>
  .ok () { w with bl33_image_ep_info := e }

/-! ## The program: tamper response callback -/

/-- Number of elements of `tamper_name`: one more than the largest designator. -/
def tamper_name_size (p : platform_def) : Nat :=
  max (max p.INT_TAMP1 p.INT_TAMP2) (max p.INT_TAMP3 p.INT_TAMP4) + 1

/-- The table `tamper_name[]`, built from designated initialisers: an index that
no designator names holds a null pointer, and a later designator overrides an
earlier one. -/
def tamper_name (p : platform_def) : List (Option String) :=
  (List.range (tamper_name_size p)).map fun j =>
    if j = p.INT_TAMP4 then some "HSE monitoring"
    else if j = p.INT_TAMP3 then some "LSE monitoring"
    else if j = p.INT_TAMP2 then some "Temperature monitoring"
    else if j = p.INT_TAMP1 then some "RTC power domain"
    else none

/-- The callback `stm32mp1_tamper_action`. -/
def stm32mp1_tamper_action (p : platform_def) (id : Int) : M Int := do
  let tamp_name ←
    if 0 ≤ id ∧ id.toNat < (tamper_name p).length then
      array_read (tamper_name p) id.toNat
    else
      (pure none : M (Option String))
  ERROR "Tamper %u (%s) occurs\n" [.num id, .str tamp_name]
  return 1

/-! ## The program: USB PHY regulator, interrupt dispatcher, next-stage accessor -/

/-- The function `disable_usb_phy_regulator`. -/
def disable_usb_phy_regulator (c : Collab) : M Unit := do
  call .dt_pmic_status
  if c.usb_dt_pmic_status > 0 then
    call .dt_get_usb_phy_regulator
    if c.usb_phy_regulator_is_null then
      pure ()
    else
      call .regulator_is_enabled
      if c.regulator_is_enabled = 1 then
        call .regulator_disable
        if c.regulator_disable < 0 then
          WARN "USBPHYC phy-supply (%s) disable failed\n" [.str (some c.usb_phy_reg_name)]
        else
          pure ()
      else
        pure ()
  else
    pure ()

/-- The handler `sp_min_plat_fiq_handler`. -/
def sp_min_plat_fiq_handler (p : platform_def) (id : Nat) : M Unit := do
  let key := id &&& p.INT_ID_MASK
  if key = p.STM32MP1_IRQ_TZC400 then
    call (.tzc400_init p.STM32MP1_TZC_BASE)
    call .tzc400_it_handler
    panic
  else if key = p.STM32MP1_IRQ_TAMPSERRS then
    call .stm32_tamp_it_handler
  else if key = p.STM32MP1_IRQ_AXIERRIRQ then
    ERROR "STM32MP1_IRQ_AXIERRIRQ generated\n" []
    panic
  else
    ERROR "SECURE IT handler not define for it : %u" [.num id]

/-- The accessor `sp_min_plat_get_bl33_ep_info`; `none` is the NULL pointer,
`some e` a pointer to the static record whose content is `e`. -/
def sp_min_plat_get_bl33_ep_info : M (Option entry_point_info) := do
  let next_image_info ← get_bl33_image_ep_info
  if next_image_info.pc = 0 then
    return none
  return some next_image_info

/-! ## The program: static SYSRAM layout and ETZPC ranges -/

/-- Unsigned 32-bit addition. -/
def u32_add (a b : Nat) : Nat := (a + b) % 2 ^ 32

/-- Unsigned 32-bit subtraction. -/
def u32_sub (a b : Nat) : Nat := (a % 2 ^ 32 + 2 ^ 32 - b % 2 ^ 32) % 2 ^ 32

/-- Modelled from the spec: `FOUR_KB_SHIFT` is defined outside this translation
unit; the protection granule of the spec is 4 KiB, that is a shift by 12. -/
def FOUR_KB_SHIFT : Nat := 12

/-- Modelled from the spec: `PAGE_SIZE_4KB` is defined outside this translation
unit; the protection granule of the spec is 4 KiB. -/
def PAGE_SIZE_4KB : Nat := 4096

/-- First `CASSERT`: secure SYSRAM starts at the bank base and fits in the bank. -/
def assert_secure_sysram_fits_at_begining_of_sysram (p : platform_def) : Prop :=
  p.STM32MP_SEC_SYSRAM_BASE = p.STM32MP_SYSRAM_BASE ∧
  u32_add p.STM32MP_SEC_SYSRAM_BASE p.STM32MP_SEC_SYSRAM_SIZE ≤
    u32_add p.STM32MP_SYSRAM_BASE p.STM32MP_SYSRAM_SIZE

/-- Second `CASSERT`: the non-secure region ends at the bank end. -/
def assert_non_secure_sysram_fits_at_end_of_sysram (p : platform_def) (ns : ns_sysram) : Prop :=
  ns.STM32MP_NS_SYSRAM_BASE ≥ p.STM32MP_SEC_SYSRAM_BASE ∧
  u32_add ns.STM32MP_NS_SYSRAM_BASE ns.STM32MP_NS_SYSRAM_SIZE =
    u32_add p.STM32MP_SYSRAM_BASE p.STM32MP_SYSRAM_SIZE

/-- Third `CASSERT`: the non-secure base is 4 KiB aligned. -/
def assert_non_secure_sysram_base_is_4kbyte_aligned (ns : ns_sysram) : Prop :=
  ns.STM32MP_NS_SYSRAM_BASE &&& (u32_sub PAGE_SIZE_4KB 1) = 0

/-- The macro `TZMA1_SECURE_RANGE`, in unsigned 32-bit arithmetic. -/
def TZMA1_SECURE_RANGE (p : platform_def) : Nat :=
  match p.NS_SYSRAM with
  | some ns =>
    u32_sub ((u32_sub ns.STM32MP_NS_SYSRAM_BASE p.STM32MP_SYSRAM_BASE) >>> FOUR_KB_SHIFT) 1
  | none => p.STM32MP1_ETZPC_TZMA_ALL_SECURE

/-- The macro `TZMA0_SECURE_RANGE`. -/
def TZMA0_SECURE_RANGE (p : platform_def) : Nat := p.STM32MP1_ETZPC_TZMA_ALL_SECURE

/-- The function `stm32mp1_etzpc_early_setup`. -/
def stm32mp1_etzpc_early_setup (p : platform_def) (c : Collab) : M Unit := do
  call .etzpc_init
  if c.etzpc_init ≠ 0 then
    panic
  else
    call (.etzpc_configure_tzma p.STM32MP1_ETZPC_TZMA_ROM (TZMA0_SECURE_RANGE p))
    call (.etzpc_configure_tzma p.STM32MP1_ETZPC_TZMA_SYSRAM (TZMA1_SECURE_RANGE p))

/-! ## The program: early platform setup -/

/-- The `while` loop of `sp_min_early_platform_setup2` that walks the handoff list
and copies the BL33 entry point information. -/
def copy_bl33_ep_info (p : platform_def) (arg2 : Nat) : List bl_params_node → M Unit
  | [] => pure ()
  | bl_params :: next_params_info =>
    if bl_params.image_id = p.BL33_IMAGE_ID then do
      set_bl33_image_ep_info bl_params.ep_info
      if arg2 ≠ 0 then
        let e ← get_bl33_image_ep_info
        set_bl33_image_ep_info { e with args := { e.args with arg0 := 0 } }
        let e ← get_bl33_image_ep_info
        set_bl33_image_ep_info { e with args := { e.args with arg1 := 0 } }
        let e ← get_bl33_image_ep_info
        set_bl33_image_ep_info { e with args := { e.args with arg2 := arg2 } }
      else
        pure ()
    else
      copy_bl33_ep_info p arg2 next_params_info

/-- The function `sp_min_early_platform_setup2`. -/
def sp_min_early_platform_setup2 (p : platform_def) (c : Collab)
    (arg0 arg1 arg2 _arg3 : Nat) : M Unit := do
  let dt_addr := if p.STM32MP_USE_STM32IMAGE then p.STM32MP_DTB_BASE else arg1
  call .stm32mp_setup_early_console
  let scr ← read_scr
  write_scr (scr ||| p.SCR_AW_BIT)
  call (.mmap_add_region p.BL_CODE_BASE p.BL_CODE_BASE
    (u32_sub p.BL_CODE_END p.BL_CODE_BASE) (p.MT_CODE ||| p.MT_SECURE))
  call .configure_mmu
  assert (arg0 != 0)
  let params_from_bl2 ← read_bl_params arg0
  assert (params_from_bl2.h.type == p.PARAM_BL_PARAMS)
  assert (decide (params_from_bl2.h.version ≥ p.VERSION_2))
  copy_bl33_ep_info p arg2 params_from_bl2.head
  call (.dt_open_and_check dt_addr)
  if c.dt_open_and_check < 0 then
    panic
  else
    call .bsec_probe
    if c.bsec_probe ≠ 0 then
      panic
    else
      call .stm32mp1_clk_probe
      if c.stm32mp1_clk_probe < 0 then
        panic
      else
        call .stm32mp_uart_console_setup
        stm32mp1_etzpc_early_setup p c
        call .generic_delay_timer_init
        call .dt_pmic_status
        if c.dt_pmic_status > 0 then
          call .initialize_pmic
        else
          pure ()
        call .fixed_regulator_register
        call .regulator_core_config
        if c.regulator_core_config ≠ 0 then
          ERROR "Regulator core config error\n" []
          panic
        else
          disable_usb_phy_regulator c

/-! ## The program: platform setup -/

/-- The function `init_sec_peripherals`. -/
def init_sec_peripherals (p : platform_def) (c : Collab) : M Unit := do
  call (.stm32mp1_clk_mcuss_protect false)
  call .stm32_rtc_init
  if c.stm32_rtc_init < 0 then
    WARN "RTC driver init error %i\n" [.num c.stm32_rtc_init]
  else
    pure ()
  call .stm32_rng_init
  if c.stm32_rng_init < 0 then
    WARN "RNG driver init error %i\n" [.num c.stm32_rng_init]
  else
    pure ()
  call .stm32_tamp_init
  if c.stm32_tamp_init > 0 then
    call (.stm32_tamp_set_secure_bkpregs p.TAMP_BKP_SEC_NUMBER 0)
    if c.stm32_tamp_set_secure_bkpregs < 0 then
      panic
    else
      call (.stm32_tamp_configure_secure_access p.TAMP_REGS_IT_SECURE)
      call (.stm32_tamp_configure_internal p.INT_TAMP1 p.TAMP_ENABLE .stm32mp1_tamper_action)
      call (.stm32_tamp_configure_internal p.INT_TAMP2 p.TAMP_ENABLE .stm32mp1_tamper_action)
      call (.stm32_tamp_configure_internal p.INT_TAMP3 p.TAMP_ENABLE .stm32mp1_tamper_action)
      call (.stm32_tamp_configure_internal p.INT_TAMP4 p.TAMP_ENABLE .stm32mp1_tamper_action)
      call .stm32_tamp_set_config
      if c.stm32_tamp_set_config < 0 then
        panic
      else
        call .stm32_rtc_set_tamper_timestamp
  else
    pure ()

/-- The function `sp_min_platform_setup`. -/
def sp_min_platform_setup (p : platform_def) (c : Collab) : M Unit := do
  call .stm32mp_gic_init
  init_sec_peripherals p c
  call .stm32_iwdg_init
  if c.stm32_iwdg_init < 0 then
    panic
  else
    call .stm32mp_lock_periph_registering
    call .stm32mp1_init_scmi_server
    call .regulator_core_cleanup

/-- The function `sp_min_plat_arch_setup`, whose body is empty. -/
def sp_min_plat_arch_setup : M Unit := pure ()

/-! ## Vocabulary of the statements -/

/-- Events performed by a run started in state `w`. -/
def Res.events {α : Type} (w : World) (r : Res α) : List Event :=
  r.world.trace.drop w.trace.length

/-- Whether a trace entry is a log line (as opposed to a driver call). -/
def Event.is_log : Event → Bool
  | .ERROR _ _ => true
  | .WARN _ _ => true
  | _ => false

/-- The driver calls of a trace, log lines removed. -/
def driver_calls (t : List Event) : List Event := t.filter fun e => !e.is_log

/-- Backup register zone configuration call. -/
def Event.is_bkpregs_config : Event → Bool
  | .stm32_tamp_set_secure_bkpregs _ _ => true
  | _ => false

/-- Registration of an internal tamper source. -/
def Event.is_tamper_source_config : Event → Bool
  | .stm32_tamp_configure_internal _ _ _ => true
  | _ => false

/-- Any call that configures the tamper controller: backup register zones,
secure access, tamper source registration, or commit. -/
def Event.is_tamper_setup : Event → Bool
  | .stm32_tamp_set_secure_bkpregs _ _ => true
  | .stm32_tamp_configure_secure_access _ => true
  | .stm32_tamp_configure_internal _ _ _ => true
  | .stm32_tamp_set_config => true
  | _ => false

/-- State after `stm32mp_gic_init` has been called. -/
def after_gic_init (w : World) : World :=
  { w with trace := w.trace ++ [Event.stm32mp_gic_init] }

/-- Every layout constant is a 32-bit unsigned value. -/
def layout_is_u32 (p : platform_def) (ns : ns_sysram) : Prop :=
  p.STM32MP_SYSRAM_BASE < 2 ^ 32 ∧ p.STM32MP_SYSRAM_SIZE < 2 ^ 32 ∧
  p.STM32MP_SEC_SYSRAM_BASE < 2 ^ 32 ∧ p.STM32MP_SEC_SYSRAM_SIZE < 2 ^ 32 ∧
  ns.STM32MP_NS_SYSRAM_BASE < 2 ^ 32 ∧ ns.STM32MP_NS_SYSRAM_SIZE < 2 ^ 32

instance (p : platform_def) (ns : ns_sysram) : Decidable (layout_is_u32 p ns) := by
  unfold layout_is_u32; infer_instance

instance (p : platform_def) : Decidable (assert_secure_sysram_fits_at_begining_of_sysram p) := by
  unfold assert_secure_sysram_fits_at_begining_of_sysram; infer_instance

instance (p : platform_def) (ns : ns_sysram) :
    Decidable (assert_non_secure_sysram_fits_at_end_of_sysram p ns) := by
  unfold assert_non_secure_sysram_fits_at_end_of_sysram; infer_instance

instance (ns : ns_sysram) : Decidable (assert_non_secure_sysram_base_is_4kbyte_aligned ns) := by
  unfold assert_non_secure_sysram_base_is_4kbyte_aligned; infer_instance

/-- The zero-initialised static `bl33_image_ep_info`. -/
def zero_ep_info : entry_point_info := ⟨0, 0, ⟨0, 0, 0, 0⟩⟩

/-! ## Concrete inputs used for evaluation -/

/-- Constants of the STM32MP15 platform, with a 4 KiB non-secure SYSRAM page at
the end of the bank. -/
def stm32mp15 : platform_def where
  INT_TAMP1 := 0
  INT_TAMP2 := 1
  INT_TAMP3 := 2
  INT_TAMP4 := 3
  TAMP_ENABLE := 1
  TAMP_BKP_SEC_NUMBER := 10
  TAMP_REGS_IT_SECURE := 1
  INT_ID_MASK := 0x3FF
  STM32MP1_IRQ_TZC400 := 36
  STM32MP1_IRQ_TAMPSERRS := 229
  STM32MP1_IRQ_AXIERRIRQ := 244
  STM32MP1_TZC_BASE := 0x5C006000
  STM32MP_SYSRAM_BASE := 0x2FFC0000
  STM32MP_SYSRAM_SIZE := 0x40000
  STM32MP_SEC_SYSRAM_BASE := 0x2FFC0000
  STM32MP_SEC_SYSRAM_SIZE := 0x3F000
  NS_SYSRAM := some ⟨0x2FFFF000, 0x1000⟩
  STM32MP1_ETZPC_TZMA_ALL_SECURE := 0x3FF
  STM32MP1_ETZPC_TZMA_ROM := 0
  STM32MP1_ETZPC_TZMA_SYSRAM := 1
  PARAM_BL_PARAMS := 5
  VERSION_2 := 2
  BL33_IMAGE_ID := 5
  STM32MP_USE_STM32IMAGE := false
  STM32MP_DTB_BASE := 0xC0500000
  SCR_AW_BIT := 0x20
  BL_CODE_BASE := 0x2FFC5000
  BL_CODE_END := 0x2FFD8000
  MT_CODE := 2
  MT_SECURE := 0

/-- Every driver reports success; a tamper controller is present. -/
def all_ok : Collab where
  dt_open_and_check := 0
  bsec_probe := 0
  stm32mp1_clk_probe := 0
  etzpc_init := 0
  dt_pmic_status := 1
  regulator_core_config := 0
  usb_dt_pmic_status := 1
  usb_phy_regulator_is_null := false
  regulator_is_enabled := 1
  regulator_disable := 0
  usb_phy_reg_name := "vdd_usb"
  stm32_rtc_init := 0
  stm32_rng_init := 0
  stm32_tamp_init := 1
  stm32_tamp_set_secure_bkpregs := 0
  stm32_tamp_set_config := 0
  stm32_iwdg_init := 0

/-- State at process start over a given BL2 memory: statics zeroed, nothing done. -/
def boot_world (mem : Nat → bl_params) : World := ⟨zero_ep_info, 0, mem, []⟩

/-- A BL2 memory holding the same block at every address. -/
def mem_of (b : bl_params) : Nat → bl_params := fun _ => b

/-- Layout whose upper 128 KiB of SYSRAM are non-secure. -/
def ns_upper_half : platform_def :=
  { stm32mp15 with
    STM32MP_SEC_SYSRAM_SIZE := 0x20000
    NS_SYSRAM := some ⟨0x2FFE0000, 0x20000⟩ }

/-- Layout without a non-secure SYSRAM region. -/
def all_secure_sysram : platform_def :=
  { stm32mp15 with
    STM32MP_SEC_SYSRAM_SIZE := 0x40000
    NS_SYSRAM := none }

/-- Layout whose whole SYSRAM bank is non-secure: the secure region is empty and
the non-secure region starts at the bank base. -/
def all_non_secure_sysram : platform_def :=
  { stm32mp15 with
    STM32MP_SEC_SYSRAM_SIZE := 0
    NS_SYSRAM := some ⟨0x2FFC0000, 0x40000⟩ }

/-- Layout that passes the three build-time assertions with the non-secure base
at the bank base. -/
def ns_at_bank_base : platform_def :=
  { stm32mp15 with NS_SYSRAM := some ⟨0x2FFC0000, 0x40000⟩ }

/-- Handoff block of the end-to-end scenario: one BL33 node with program counter
`0x2FFC0000` and arguments 1, 2, 3. -/
def one_bl33_block : bl_params :=
  ⟨⟨5, 2⟩, [⟨5, ⟨0x2FFC0000, 0, ⟨1, 2, 3, 0⟩⟩⟩]⟩

/-- Well-formed handoff block with an empty list (`head == NULL`). -/
def empty_block : bl_params := ⟨⟨5, 2⟩, []⟩

/-! ## Characterisations used in the proofs -/

/-- Events of `init_sec_peripherals` up to and including the tamper probe. -/
def sec_probe_events (c : Collab) : List Event :=
  [Event.stm32mp1_clk_mcuss_protect false, Event.stm32_rtc_init] ++
  (if c.stm32_rtc_init < 0 then [Event.WARN "RTC driver init error %i\n" [.num c.stm32_rtc_init]]
   else []) ++
  [Event.stm32_rng_init] ++
  (if c.stm32_rng_init < 0 then [Event.WARN "RNG driver init error %i\n" [.num c.stm32_rng_init]]
   else []) ++
  [Event.stm32_tamp_init]

/-- Events of `init_sec_peripherals` after the backup register zone call. -/
def sec_tamper_events (p : platform_def) (c : Collab) : List Event :=
  if c.stm32_tamp_set_secure_bkpregs < 0 then []
  else
    [Event.stm32_tamp_configure_secure_access p.TAMP_REGS_IT_SECURE,
     Event.stm32_tamp_configure_internal p.INT_TAMP1 p.TAMP_ENABLE .stm32mp1_tamper_action,
     Event.stm32_tamp_configure_internal p.INT_TAMP2 p.TAMP_ENABLE .stm32mp1_tamper_action,
     Event.stm32_tamp_configure_internal p.INT_TAMP3 p.TAMP_ENABLE .stm32mp1_tamper_action,
     Event.stm32_tamp_configure_internal p.INT_TAMP4 p.TAMP_ENABLE .stm32mp1_tamper_action,
     Event.stm32_tamp_set_config] ++
    (if c.stm32_tamp_set_config < 0 then [] else [Event.stm32_rtc_set_tamper_timestamp])

/-- All events of `init_sec_peripherals`. -/
def sec_events (p : platform_def) (c : Collab) : List Event :=
  sec_probe_events c ++
  (if c.stm32_tamp_init > 0 then
    Event.stm32_tamp_set_secure_bkpregs p.TAMP_BKP_SEC_NUMBER 0 :: sec_tamper_events p c
   else [])

/-- A computation that never faults and leaves the statics, the `SCR` register and
the BL2 memory as they are. -/
def Keeps {α : Type} (m : M α) : Prop :=
  ∀ w, (m w).faulted = false ∧ (m w).world.bl33_image_ep_info = w.bl33_image_ep_info ∧
    (m w).world.bl2_mem = w.bl2_mem ∧ (m w).world.scr = w.scr

/-- The part of `sp_min_early_platform_setup2` that follows the walk of the
handoff list. -/
def early_setup_rest (p : platform_def) (c : Collab) (dt_addr : Nat) : M Unit := do
  call (.dt_open_and_check dt_addr)
  if c.dt_open_and_check < 0 then
    panic
  else
    call .bsec_probe
    if c.bsec_probe ≠ 0 then
      panic
    else
      call .stm32mp1_clk_probe
      if c.stm32mp1_clk_probe < 0 then
        panic
      else
        call .stm32mp_uart_console_setup
        stm32mp1_etzpc_early_setup p c
        call .generic_delay_timer_init
        call .dt_pmic_status
        if c.dt_pmic_status > 0 then
          call .initialize_pmic
        else
          pure ()
        call .fixed_regulator_register
        call .regulator_core_config
        if c.regulator_core_config ≠ 0 then
          ERROR "Regulator core config error\n" []
          panic
        else
          disable_usb_phy_regulator c

/-- The entry point record that the walk of the handoff list leaves in
`bl33_image_ep_info`, given the record it held before. -/
def published (p : platform_def) (arg2 : Nat) :
    List bl_params_node → entry_point_info → entry_point_info
  | [], cur => cur
  | n :: rest, cur =>
    if n.image_id = p.BL33_IMAGE_ID then
      if arg2 ≠ 0 then
        { n.ep_info with args := { n.ep_info.args with arg0 := 0, arg1 := 0, arg2 := arg2 } }
      else n.ep_info
    else published p arg2 rest cur

/-- Events of `sp_min_early_platform_setup2` before the handoff block is checked. -/
def early_setup_first_events (p : platform_def) (w : World) : List Event :=
  [Event.stm32mp_setup_early_console,
   Event.write_scr (w.scr ||| p.SCR_AW_BIT),
   Event.mmap_add_region p.BL_CODE_BASE p.BL_CODE_BASE
     (u32_sub p.BL_CODE_END p.BL_CODE_BASE) (p.MT_CODE ||| p.MT_SECURE),
   Event.configure_mmu]

/-! ## Sequencing lemmas -/

theorem bind_run {α β : Type} (m : M α) (f : α → M β) (w : World) :
    (m >>= f) w = M.bind m f w := rfl

theorem pure_run {α : Type} (a : α) (w : World) : (pure a : M α) w = Res.ok a w := rfl

theorem call_bind {β : Type} (e : Event) (f : Unit → M β) (w : World) :
    (call e >>= f) w = f () { w with trace := w.trace ++ [e] } := rfl

theorem panic_bind {α β : Type} (f : α → M β) (w : World) :
    ((panic : M α) >>= f) w = Res.halt w := rfl

/-! ## Tamper response callback -/

theorem tamper_name_length (p : platform_def) :
    (tamper_name p).length = tamper_name_size p := by
  simp [tamper_name]

theorem tamper_name_get (p : platform_def) (j : Nat) (h : j < tamper_name_size p) :
    (tamper_name p)[j]? = some
      (if j = p.INT_TAMP4 then some "HSE monitoring"
       else if j = p.INT_TAMP3 then some "LSE monitoring"
       else if j = p.INT_TAMP2 then some "Temperature monitoring"
       else if j = p.INT_TAMP1 then some "RTC power domain"
       else none) := by
  simp [tamper_name, List.getElem?_range, h]

theorem tamper_action_in_table (p : platform_def) (j : Nat) (h : j < tamper_name_size p)
    (w : World) :
    stm32mp1_tamper_action p (j : Int) w = Res.ok 1 { w with trace := w.trace ++
      [Event.ERROR "Tamper %u (%s) occurs\n" [.num j, .str
        (if j = p.INT_TAMP4 then some "HSE monitoring"
         else if j = p.INT_TAMP3 then some "LSE monitoring"
         else if j = p.INT_TAMP2 then some "Temperature monitoring"
         else if j = p.INT_TAMP1 then some "RTC power domain"
         else none)]] } := by
  have hl := tamper_name_length p
  have hg := tamper_name_get p j h
  simp [stm32mp1_tamper_action, bind_run, M.bind, array_read, hl, h, hg, ERROR, call, pure_run]

theorem tamper_action_outside (p : platform_def) (id : Int)
    (h : id < 0 ∨ (tamper_name_size p : Int) ≤ id) (w : World) :
    stm32mp1_tamper_action p id w = Res.ok 1 { w with trace := w.trace ++
      [Event.ERROR "Tamper %u (%s) occurs\n" [.num id, .str none]] } := by
  have hl := tamper_name_length p
  have hc : ¬ (0 ≤ id ∧ id.toNat < (tamper_name p).length) := by
    rw [hl]; omega
  simp [stm32mp1_tamper_action, bind_run, M.bind, hc, ERROR, call, pure_run]

/-- Claim C6: for every identifier, in or out of the table, `stm32mp1_tamper_action`
returns to its caller with the fixed directive 1 (acknowledge the tamper and reset
the system), after one diagnostic record and with the rest of the state as it
was; it never halts, faults or returns another value. -/
theorem tamper_action_returns_reset (p : platform_def) (id : Int) (w : World) :
    ∃ name : Option String,
      stm32mp1_tamper_action p id w = Res.ok 1 { w with trace := w.trace ++
        [Event.ERROR "Tamper %u (%s) occurs\n" [.num id, .str name]] } := by
  by_cases h : id < 0 ∨ (tamper_name_size p : Int) ≤ id
  · exact ⟨none, tamper_action_outside p id h w⟩
  · have hid : id = ((id.toNat : Nat) : Int) := by omega
    have hj : id.toNat < tamper_name_size p := by omega
    have hrun := tamper_action_in_table p id.toNat hj w
    rw [← hid] at hrun
    exact ⟨_, hrun⟩

/-- Claim C5 (amended): when the four designators are distinct, the callback logs
for `INT_TAMP1` .. `INT_TAMP4` the names "RTC power domain", "Temperature
monitoring", "LSE monitoring", "HSE monitoring"; for every identifier that is
negative or at or beyond the table size it selects no table entry, the name
handed to the diagnostic being the null pointer; and for no identifier at all does
it read the table out of bounds. -/
theorem tamper_action_selects_name (p : platform_def) (w : World)
    (h12 : p.INT_TAMP1 ≠ p.INT_TAMP2) (h13 : p.INT_TAMP1 ≠ p.INT_TAMP3)
    (h14 : p.INT_TAMP1 ≠ p.INT_TAMP4) (h23 : p.INT_TAMP2 ≠ p.INT_TAMP3)
    (h24 : p.INT_TAMP2 ≠ p.INT_TAMP4) (h34 : p.INT_TAMP3 ≠ p.INT_TAMP4) :
    stm32mp1_tamper_action p (p.INT_TAMP1 : Int) w = Res.ok 1 { w with trace := w.trace ++
      [Event.ERROR "Tamper %u (%s) occurs\n"
        [.num p.INT_TAMP1, .str (some "RTC power domain")]] } ∧
    stm32mp1_tamper_action p (p.INT_TAMP2 : Int) w = Res.ok 1 { w with trace := w.trace ++
      [Event.ERROR "Tamper %u (%s) occurs\n"
        [.num p.INT_TAMP2, .str (some "Temperature monitoring")]] } ∧
    stm32mp1_tamper_action p (p.INT_TAMP3 : Int) w = Res.ok 1 { w with trace := w.trace ++
      [Event.ERROR "Tamper %u (%s) occurs\n"
        [.num p.INT_TAMP3, .str (some "LSE monitoring")]] } ∧
    stm32mp1_tamper_action p (p.INT_TAMP4 : Int) w = Res.ok 1 { w with trace := w.trace ++
      [Event.ERROR "Tamper %u (%s) occurs\n"
        [.num p.INT_TAMP4, .str (some "HSE monitoring")]] } ∧
    (∀ id : Int, id < 0 ∨ ((tamper_name p).length : Int) ≤ id →
      stm32mp1_tamper_action p id w = Res.ok 1 { w with trace := w.trace ++
        [Event.ERROR "Tamper %u (%s) occurs\n" [.num id, .str none]] }) ∧
    (∀ id : Int, (stm32mp1_tamper_action p id w).faulted = false) := by
  have s1 : p.INT_TAMP1 < tamper_name_size p := by unfold tamper_name_size; omega
  have s2 : p.INT_TAMP2 < tamper_name_size p := by unfold tamper_name_size; omega
  have s3 : p.INT_TAMP3 < tamper_name_size p := by unfold tamper_name_size; omega
  have s4 : p.INT_TAMP4 < tamper_name_size p := by unfold tamper_name_size; omega
  refine ⟨?_, ?_, ?_, ?_, ?_, ?_⟩
  · rw [tamper_action_in_table p _ s1 w]; simp [h12, h13, h14]
  · rw [tamper_action_in_table p _ s2 w]; simp [h23, h24]
  · rw [tamper_action_in_table p _ s3 w]; simp [h34]
  · rw [tamper_action_in_table p _ s4 w]; simp
  · intro id hid
    rw [tamper_name_length] at hid
    exact tamper_action_outside p id hid w
  · intro id
    by_cases h : id < 0 ∨ (tamper_name_size p : Int) ≤ id
    · rw [tamper_action_outside p id h w]; rfl
    · have hid : id = ((id.toNat : Nat) : Int) := by omega
      have hj : id.toNat < tamper_name_size p := by omega
      rw [hid, tamper_action_in_table p id.toNat hj w]; rfl

/-- On the STM32MP15 constants the four designators are distinct, and tamper
source 2 (`INT_TAMP2`) names "Temperature monitoring". -/
theorem tamper_action_selects_name_witness :
    [stm32mp15.INT_TAMP1, stm32mp15.INT_TAMP2, stm32mp15.INT_TAMP3,
      stm32mp15.INT_TAMP4].Nodup ∧
    stm32mp1_tamper_action stm32mp15 1 (boot_world (mem_of ⟨⟨0, 0⟩, []⟩)) =
      Res.ok 1 { boot_world (mem_of ⟨⟨0, 0⟩, []⟩) with trace :=
        [Event.ERROR "Tamper %u (%s) occurs\n"
          [.num 1, .str (some "Temperature monitoring")]] } :=
  ⟨by decide,
   (tamper_action_selects_name stm32mp15 (boot_world (mem_of ⟨⟨0, 0⟩, []⟩))
    (by decide) (by decide) (by decide) (by decide) (by decide) (by decide)).2.1⟩

/-- Claim C5, counterexample: on the STM32MP15 constants the identifier 4 lies
beyond the four-element table; the callback returns after logging a null name, so
the logged name is not the string "unknown". -/
theorem tamper_action_unknown_is_null :
    (stm32mp1_tamper_action stm32mp15 4 (boot_world (mem_of ⟨⟨0, 0⟩, []⟩))).world.trace =
      [Event.ERROR "Tamper %u (%s) occurs\n" [.num 4, .str none]] ∧
    (stm32mp1_tamper_action stm32mp15 4 (boot_world (mem_of ⟨⟨0, 0⟩, []⟩))).world.trace ≠
      [Event.ERROR "Tamper %u (%s) occurs\n" [.num 4, .str (some "unknown")]] := by
  have h := tamper_action_outside stm32mp15 4 (Or.inr (by decide))
    (boot_world (mem_of ⟨⟨0, 0⟩, []⟩))
  rw [h]
  simp [Res.world, boot_world]

/-! ## Secure interrupt dispatcher -/

theorem fiq_tzc400 (p : platform_def) (id : Nat) (w : World)
    (h : id &&& p.INT_ID_MASK = p.STM32MP1_IRQ_TZC400) :
    sp_min_plat_fiq_handler p id w = Res.halt { w with trace := w.trace ++
      [Event.tzc400_init p.STM32MP1_TZC_BASE, Event.tzc400_it_handler] } := by
  simp [sp_min_plat_fiq_handler, h, bind_run, M.bind, call, panic]

theorem fiq_tampserrs (p : platform_def) (id : Nat) (w : World)
    (h0 : id &&& p.INT_ID_MASK ≠ p.STM32MP1_IRQ_TZC400)
    (h : id &&& p.INT_ID_MASK = p.STM32MP1_IRQ_TAMPSERRS) :
    sp_min_plat_fiq_handler p id w = Res.ok () { w with trace := w.trace ++
      [Event.stm32_tamp_it_handler] } := by
  unfold sp_min_plat_fiq_handler
  rw [if_neg h0, if_pos h]
  rfl

theorem fiq_axierrirq (p : platform_def) (id : Nat) (w : World)
    (h0 : id &&& p.INT_ID_MASK ≠ p.STM32MP1_IRQ_TZC400)
    (h1 : id &&& p.INT_ID_MASK ≠ p.STM32MP1_IRQ_TAMPSERRS)
    (h : id &&& p.INT_ID_MASK = p.STM32MP1_IRQ_AXIERRIRQ) :
    sp_min_plat_fiq_handler p id w = Res.halt { w with trace := w.trace ++
      [Event.ERROR "STM32MP1_IRQ_AXIERRIRQ generated\n" []] } := by
  unfold sp_min_plat_fiq_handler
  rw [if_neg h0, if_neg h1, if_pos h]
  rfl

theorem fiq_default (p : platform_def) (id : Nat) (w : World)
    (h0 : id &&& p.INT_ID_MASK ≠ p.STM32MP1_IRQ_TZC400)
    (h1 : id &&& p.INT_ID_MASK ≠ p.STM32MP1_IRQ_TAMPSERRS)
    (h2 : id &&& p.INT_ID_MASK ≠ p.STM32MP1_IRQ_AXIERRIRQ) :
    sp_min_plat_fiq_handler p id w = Res.ok () { w with trace := w.trace ++
      [Event.ERROR "SECURE IT handler not define for it : %u" [.num id]] } := by
  unfold sp_min_plat_fiq_handler
  rw [if_neg h0, if_neg h1, if_neg h2]
  rfl

/-- What a dispatch does apart from its log lines: whether it halts, whether it
returns, which driver calls it makes, and the statics it leaves. -/
theorem fiq_observation (p : platform_def) (id : Nat) (w : World) :
    ((sp_min_plat_fiq_handler p id w).halted,
     (sp_min_plat_fiq_handler p id w).returned,
     driver_calls ((sp_min_plat_fiq_handler p id w).events w),
     (sp_min_plat_fiq_handler p id w).world.bl33_image_ep_info,
     (sp_min_plat_fiq_handler p id w).world.scr) =
    (if id &&& p.INT_ID_MASK = p.STM32MP1_IRQ_TZC400 then
       (true, false, [Event.tzc400_init p.STM32MP1_TZC_BASE, Event.tzc400_it_handler],
        w.bl33_image_ep_info, w.scr)
     else if id &&& p.INT_ID_MASK = p.STM32MP1_IRQ_TAMPSERRS then
       (false, true, [Event.stm32_tamp_it_handler], w.bl33_image_ep_info, w.scr)
     else if id &&& p.INT_ID_MASK = p.STM32MP1_IRQ_AXIERRIRQ then
       (true, false, [], w.bl33_image_ep_info, w.scr)
     else (false, true, [], w.bl33_image_ep_info, w.scr)) := by
  by_cases h0 : id &&& p.INT_ID_MASK = p.STM32MP1_IRQ_TZC400
  · rw [fiq_tzc400 p id w h0]
    simp [h0, Res.halted, Res.returned, Res.events, Res.world, driver_calls, Event.is_log]
  · by_cases h1 : id &&& p.INT_ID_MASK = p.STM32MP1_IRQ_TAMPSERRS
    · rw [fiq_tampserrs p id w h0 h1, if_neg h0, if_pos h1]
      simp [Res.halted, Res.returned, Res.events, Res.world, driver_calls, Event.is_log]
    · by_cases h2 : id &&& p.INT_ID_MASK = p.STM32MP1_IRQ_AXIERRIRQ
      · rw [fiq_axierrirq p id w h0 h1 h2, if_neg h0, if_neg h1, if_pos h2]
        simp [Res.halted, Res.returned, Res.events, Res.world, driver_calls, Event.is_log]
      · rw [fiq_default p id w h0 h1 h2, if_neg h0, if_neg h1, if_neg h2]
        simp [Res.halted, Res.returned, Res.events, Res.world, driver_calls, Event.is_log]

/-- The events, the way of ending and the statics of a dispatch do not depend on
what the trace already holds. -/
theorem fiq_same_handling (p : platform_def) (id : Nat) (w w1 : World)
    (hb : w1.bl33_image_ep_info = w.bl33_image_ep_info) (hs : w1.scr = w.scr) :
    (sp_min_plat_fiq_handler p id w1).events w1 = (sp_min_plat_fiq_handler p id w).events w ∧
    (sp_min_plat_fiq_handler p id w1).halted = (sp_min_plat_fiq_handler p id w).halted ∧
    (sp_min_plat_fiq_handler p id w1).returned = (sp_min_plat_fiq_handler p id w).returned ∧
    (sp_min_plat_fiq_handler p id w1).world.bl33_image_ep_info =
      (sp_min_plat_fiq_handler p id w).world.bl33_image_ep_info ∧
    (sp_min_plat_fiq_handler p id w1).world.scr = (sp_min_plat_fiq_handler p id w).world.scr := by
  by_cases h0 : id &&& p.INT_ID_MASK = p.STM32MP1_IRQ_TZC400
  · rw [fiq_tzc400 p id w h0, fiq_tzc400 p id w1 h0]
    simp [Res.halted, Res.returned, Res.events, Res.world, hb, hs]
  · by_cases h1 : id &&& p.INT_ID_MASK = p.STM32MP1_IRQ_TAMPSERRS
    · rw [fiq_tampserrs p id w h0 h1, fiq_tampserrs p id w1 h0 h1]
      simp [Res.halted, Res.returned, Res.events, Res.world, hb, hs]
    · by_cases h2 : id &&& p.INT_ID_MASK = p.STM32MP1_IRQ_AXIERRIRQ
      · rw [fiq_axierrirq p id w h0 h1 h2, fiq_axierrirq p id w1 h0 h1 h2]
        simp [Res.halted, Res.returned, Res.events, Res.world, hb, hs]
      · rw [fiq_default p id w h0 h1 h2, fiq_default p id w1 h0 h1 h2]
        simp [Res.halted, Res.returned, Res.events, Res.world, hb, hs]

/-- Claim C7: with pairwise distinct case labels, the dispatcher acts on
`id & INT_ID_MASK` alone. Masked id `STM32MP1_IRQ_TZC400`: `tzc400_init`, then
`tzc400_it_handler`, then halt. Masked id `STM32MP1_IRQ_AXIERRIRQ`: halt.
Masked id `STM32MP1_IRQ_TAMPSERRS`: one call of `stm32_tamp_it_handler`, then
return. Any other masked id: return after one log line, with no driver call and
the statics untouched, and any identifier dispatched next is handled (events,
halting, statics) exactly as from the state before. Two identifiers with the same
masked value halt or return alike and make the same driver calls. -/
theorem fiq_handler_dispatch (p : platform_def) (id : Nat) (w : World)
    (hd1 : p.STM32MP1_IRQ_TZC400 ≠ p.STM32MP1_IRQ_TAMPSERRS)
    (hd2 : p.STM32MP1_IRQ_TZC400 ≠ p.STM32MP1_IRQ_AXIERRIRQ)
    (hd3 : p.STM32MP1_IRQ_TAMPSERRS ≠ p.STM32MP1_IRQ_AXIERRIRQ) :
    (id &&& p.INT_ID_MASK = p.STM32MP1_IRQ_TZC400 →
      sp_min_plat_fiq_handler p id w = Res.halt { w with trace := w.trace ++
        [Event.tzc400_init p.STM32MP1_TZC_BASE, Event.tzc400_it_handler] }) ∧
    (id &&& p.INT_ID_MASK = p.STM32MP1_IRQ_AXIERRIRQ →
      sp_min_plat_fiq_handler p id w = Res.halt { w with trace := w.trace ++
        [Event.ERROR "STM32MP1_IRQ_AXIERRIRQ generated\n" []] }) ∧
    (id &&& p.INT_ID_MASK = p.STM32MP1_IRQ_TAMPSERRS →
      sp_min_plat_fiq_handler p id w = Res.ok () { w with trace := w.trace ++
        [Event.stm32_tamp_it_handler] }) ∧
    (id &&& p.INT_ID_MASK ≠ p.STM32MP1_IRQ_TZC400 ∧
     id &&& p.INT_ID_MASK ≠ p.STM32MP1_IRQ_TAMPSERRS ∧
     id &&& p.INT_ID_MASK ≠ p.STM32MP1_IRQ_AXIERRIRQ →
      sp_min_plat_fiq_handler p id w = Res.ok () { w with trace := w.trace ++
        [Event.ERROR "SECURE IT handler not define for it : %u" [.num id]] } ∧
      driver_calls ((sp_min_plat_fiq_handler p id w).events w) = [] ∧
      ∀ next : Nat,
        (sp_min_plat_fiq_handler p next (sp_min_plat_fiq_handler p id w).world).events
            (sp_min_plat_fiq_handler p id w).world =
          (sp_min_plat_fiq_handler p next w).events w ∧
        (sp_min_plat_fiq_handler p next (sp_min_plat_fiq_handler p id w).world).halted =
          (sp_min_plat_fiq_handler p next w).halted ∧
        (sp_min_plat_fiq_handler p next (sp_min_plat_fiq_handler p id w).world).returned =
          (sp_min_plat_fiq_handler p next w).returned ∧
        (sp_min_plat_fiq_handler p next
            (sp_min_plat_fiq_handler p id w).world).world.bl33_image_ep_info =
          (sp_min_plat_fiq_handler p next w).world.bl33_image_ep_info ∧
        (sp_min_plat_fiq_handler p next (sp_min_plat_fiq_handler p id w).world).world.scr =
          (sp_min_plat_fiq_handler p next w).world.scr) ∧
    (∀ other : Nat, other &&& p.INT_ID_MASK = id &&& p.INT_ID_MASK →
      (sp_min_plat_fiq_handler p other w).halted = (sp_min_plat_fiq_handler p id w).halted ∧
      (sp_min_plat_fiq_handler p other w).returned = (sp_min_plat_fiq_handler p id w).returned ∧
      driver_calls ((sp_min_plat_fiq_handler p other w).events w) =
        driver_calls ((sp_min_plat_fiq_handler p id w).events w)) := by
  refine ⟨fiq_tzc400 p id w, ?_, ?_, ?_, ?_⟩
  · intro h
    exact fiq_axierrirq p id w (by rw [h]; exact hd2.symm) (by rw [h]; exact hd3.symm) h
  · intro h
    exact fiq_tampserrs p id w (by rw [h]; exact hd1.symm) h
  · rintro ⟨h0, h1, h2⟩
    have hrun := fiq_default p id w h0 h1 h2
    refine ⟨hrun, ?_, ?_⟩
    · have hobs := fiq_observation p id w
      rw [if_neg h0, if_neg h1, if_neg h2] at hobs
      exact congrArg (fun t => t.2.2.1) hobs
    · intro next
      apply fiq_same_handling
      · rw [hrun]; rfl
      · rw [hrun]; rfl
  · intro other hother
    have ho := fiq_observation p other w
    have hi := fiq_observation p id w
    rw [hother] at ho
    have h := ho.trans hi.symm
    exact ⟨congrArg (fun t => t.1) h, congrArg (fun t => t.2.1) h,
      congrArg (fun t => t.2.2.1) h⟩

/-- On the STM32MP15 constants the case labels are distinct; identifier
`0x400 + 229` masks to the tamper interrupt, and the tamper handler is called
once. -/
theorem fiq_handler_dispatch_witness :
    (stm32mp15.STM32MP1_IRQ_TZC400 ≠ stm32mp15.STM32MP1_IRQ_TAMPSERRS ∧
     stm32mp15.STM32MP1_IRQ_TZC400 ≠ stm32mp15.STM32MP1_IRQ_AXIERRIRQ ∧
     stm32mp15.STM32MP1_IRQ_TAMPSERRS ≠ stm32mp15.STM32MP1_IRQ_AXIERRIRQ) ∧
    sp_min_plat_fiq_handler stm32mp15 1253 (boot_world (mem_of ⟨⟨0, 0⟩, []⟩)) =
      Res.ok () { boot_world (mem_of ⟨⟨0, 0⟩, []⟩) with trace :=
        [] ++ [Event.stm32_tamp_it_handler] } :=
  ⟨by decide,
   (fiq_handler_dispatch stm32mp15 1253 (boot_world (mem_of ⟨⟨0, 0⟩, []⟩))
      (by decide) (by decide) (by decide)).2.2.1 (by decide)⟩

/-! ## ETZPC ranges and static layout -/

theorem u32_sub_int (a b : Nat) : ((u32_sub a b : Nat) : Int) = ((a : Int) - b) % 2 ^ 32 := by
  unfold u32_sub
  norm_num
  omega

theorem tzma1_defined (p : platform_def) (ns : ns_sysram) (h : p.NS_SYSRAM = some ns) :
    TZMA1_SECURE_RANGE p =
      u32_sub ((u32_sub ns.STM32MP_NS_SYSRAM_BASE p.STM32MP_SYSRAM_BASE) / 4096) 1 := by
  simp [TZMA1_SECURE_RANGE, h, FOUR_KB_SHIFT, Nat.shiftRight_eq_div_pow]

theorem tzma1_exact (p : platform_def) (ns : ns_sysram) (h : p.NS_SYSRAM = some ns)
    (hu : ns.STM32MP_NS_SYSRAM_BASE < 2 ^ 32)
    (hg : p.STM32MP_SYSRAM_BASE + 4096 ≤ ns.STM32MP_NS_SYSRAM_BASE) :
    TZMA1_SECURE_RANGE p =
      (ns.STM32MP_NS_SYSRAM_BASE - p.STM32MP_SYSRAM_BASE) / 4096 - 1 := by
  rw [tzma1_defined p ns h]
  unfold u32_sub
  norm_num at hu ⊢
  omega

theorem tzma1_plain_only_if (p : platform_def) (ns : ns_sysram) (h : p.NS_SYSRAM = some ns)
    (heq : ((TZMA1_SECURE_RANGE p : Nat) : Int) =
      ((ns.STM32MP_NS_SYSRAM_BASE : Int) - p.STM32MP_SYSRAM_BASE) / 4096 - 1) :
    p.STM32MP_SYSRAM_BASE + 4096 ≤ ns.STM32MP_NS_SYSRAM_BASE := by
  rw [tzma1_defined p ns h] at heq
  unfold u32_sub at heq
  norm_num at heq
  omega

/-- Claim C4, counterexample: the layout whose non-secure region is the whole
bank (`STM32MP_NS_SYSRAM_BASE == STM32MP_SYSRAM_BASE`, empty secure region) is a
layout of 32-bit constants that passes the three build-time assertions and
defines a non-secure base; `stm32mp1_etzpc_early_setup` programs the SYSRAM range
`0xFFFFFFFF` there, which is not `(NS_BASE - SYSRAM_BASE) / 4096 - 1`, neither
as an integer (-1) nor as a natural number (0). -/
theorem etzpc_range_differs_at_whole_bank :
    (layout_is_u32 all_non_secure_sysram ⟨0x2FFC0000, 0x40000⟩ ∧
     assert_secure_sysram_fits_at_begining_of_sysram all_non_secure_sysram ∧
     assert_non_secure_sysram_fits_at_end_of_sysram all_non_secure_sysram
       ⟨0x2FFC0000, 0x40000⟩ ∧
     assert_non_secure_sysram_base_is_4kbyte_aligned ⟨0x2FFC0000, 0x40000⟩) ∧
    (stm32mp1_etzpc_early_setup all_non_secure_sysram all_ok
        (boot_world (mem_of ⟨⟨0, 0⟩, []⟩))).events (boot_world (mem_of ⟨⟨0, 0⟩, []⟩)) =
      [Event.etzpc_init, Event.etzpc_configure_tzma 0 0x3FF,
       Event.etzpc_configure_tzma 1 0xFFFFFFFF] ∧
    ((TZMA1_SECURE_RANGE all_non_secure_sysram : Nat) : Int) ≠
      ((0x2FFC0000 : Int) - 0x2FFC0000) / 4096 - 1 ∧
    TZMA1_SECURE_RANGE all_non_secure_sysram ≠ (0x2FFC0000 - 0x2FFC0000) / 4096 - 1 := by
  refine ⟨by decide, by decide, by decide, by decide⟩

/-- Claim C4 (amended): the ROM range is always `STM32MP1_ETZPC_TZMA_ALL_SECURE`;
without a non-secure SYSRAM base the SYSRAM range is that same value; for every
layout of 32-bit constants that defines a non-secure SYSRAM base at least 4 KiB
above the bank base, and for no other, the SYSRAM range exactly equals
`(STM32MP_NS_SYSRAM_BASE - STM32MP_SYSRAM_BASE) / 4096 - 1`; for any layout with
a non-secure base it is that expression evaluated in unsigned 32-bit arithmetic;
and `stm32mp1_etzpc_early_setup` programs exactly these two values, ROM first,
unless `etzpc_init` fails, in which case it halts with nothing programmed. -/
theorem etzpc_secure_ranges (p : platform_def) (c : Collab) (w : World) :
    TZMA0_SECURE_RANGE p = p.STM32MP1_ETZPC_TZMA_ALL_SECURE ∧
    (p.NS_SYSRAM = none → TZMA1_SECURE_RANGE p = p.STM32MP1_ETZPC_TZMA_ALL_SECURE) ∧
    (∀ ns : ns_sysram, p.NS_SYSRAM = some ns →
      ns.STM32MP_NS_SYSRAM_BASE < 2 ^ 32 → p.STM32MP_SYSRAM_BASE < 2 ^ 32 →
      (p.STM32MP_SYSRAM_BASE + 4096 ≤ ns.STM32MP_NS_SYSRAM_BASE →
        ((TZMA1_SECURE_RANGE p : Nat) : Int) =
          ((ns.STM32MP_NS_SYSRAM_BASE : Int) - p.STM32MP_SYSRAM_BASE) / 4096 - 1 ∧
        TZMA1_SECURE_RANGE p =
          (ns.STM32MP_NS_SYSRAM_BASE - p.STM32MP_SYSRAM_BASE) / 4096 - 1) ∧
      (((TZMA1_SECURE_RANGE p : Nat) : Int) =
          ((ns.STM32MP_NS_SYSRAM_BASE : Int) - p.STM32MP_SYSRAM_BASE) / 4096 - 1 →
        p.STM32MP_SYSRAM_BASE + 4096 ≤ ns.STM32MP_NS_SYSRAM_BASE)) ∧
    (∀ ns : ns_sysram, p.NS_SYSRAM = some ns →
      ((TZMA1_SECURE_RANGE p : Nat) : Int) =
        ((((ns.STM32MP_NS_SYSRAM_BASE : Int) - p.STM32MP_SYSRAM_BASE) % 2 ^ 32) / 4096 - 1)
          % 2 ^ 32) ∧
    (c.etzpc_init = 0 →
      stm32mp1_etzpc_early_setup p c w = Res.ok () { w with trace := w.trace ++
        [Event.etzpc_init,
         Event.etzpc_configure_tzma p.STM32MP1_ETZPC_TZMA_ROM p.STM32MP1_ETZPC_TZMA_ALL_SECURE,
         Event.etzpc_configure_tzma p.STM32MP1_ETZPC_TZMA_SYSRAM (TZMA1_SECURE_RANGE p)] }) ∧
    (c.etzpc_init ≠ 0 →
      stm32mp1_etzpc_early_setup p c w = Res.halt { w with trace := w.trace ++
        [Event.etzpc_init] }) := by
  refine ⟨rfl, ?_, ?_, ?_, ?_, ?_⟩
  · intro h
    simp [TZMA1_SECURE_RANGE, h]
  · intro ns h hu hb
    refine ⟨?_, tzma1_plain_only_if p ns h⟩
    intro hg
    have hx := tzma1_exact p ns h hu hg
    refine ⟨?_, hx⟩
    rw [hx]
    norm_num at hu hb
    omega
  · intro ns h
    rw [tzma1_defined p ns h, u32_sub_int]
    have h2 := u32_sub_int ns.STM32MP_NS_SYSRAM_BASE p.STM32MP_SYSRAM_BASE
    push_cast
    rw [h2]
    norm_num
  · intro h
    simp [stm32mp1_etzpc_early_setup, bind_run, M.bind, call, h, TZMA0_SECURE_RANGE]
  · intro h
    simp [stm32mp1_etzpc_early_setup, bind_run, M.bind, call, h, panic]

/-- Three layouts of the 256 KiB bank at `0x2FFC0000`, each with its non-secure
base, if any, at least 4 KiB above the bank base. One non-secure page at the end
gives 62; a non-secure upper half gives 31; no non-secure region gives the
all-secure value. -/
theorem etzpc_secure_ranges_witness :
    (stm32mp15.STM32MP_SYSRAM_BASE + 4096 ≤ 0x2FFFF000 ∧
     ns_upper_half.STM32MP_SYSRAM_BASE + 4096 ≤ 0x2FFE0000) ∧
    (((TZMA1_SECURE_RANGE stm32mp15 : Nat) : Int) =
        ((0x2FFFF000 : Int) - 0x2FFC0000) / 4096 - 1 ∧
      TZMA1_SECURE_RANGE stm32mp15 = (0x2FFFF000 - 0x2FFC0000) / 4096 - 1) ∧
    TZMA1_SECURE_RANGE stm32mp15 = 62 ∧
    (((TZMA1_SECURE_RANGE ns_upper_half : Nat) : Int) =
        ((0x2FFE0000 : Int) - 0x2FFC0000) / 4096 - 1 ∧
      TZMA1_SECURE_RANGE ns_upper_half = (0x2FFE0000 - 0x2FFC0000) / 4096 - 1) ∧
    TZMA1_SECURE_RANGE ns_upper_half = 31 ∧
    TZMA1_SECURE_RANGE all_secure_sysram = all_secure_sysram.STM32MP1_ETZPC_TZMA_ALL_SECURE ∧
    stm32mp1_etzpc_early_setup stm32mp15 all_ok (boot_world (mem_of ⟨⟨0, 0⟩, []⟩)) =
      Res.ok () { boot_world (mem_of ⟨⟨0, 0⟩, []⟩) with trace := [] ++
        [Event.etzpc_init, Event.etzpc_configure_tzma 0 0x3FF,
         Event.etzpc_configure_tzma 1 (TZMA1_SECURE_RANGE stm32mp15)] } :=
  ⟨by decide,
   ((etzpc_secure_ranges stm32mp15 all_ok (boot_world (mem_of ⟨⟨0, 0⟩, []⟩))).2.2.1
      ⟨0x2FFFF000, 0x1000⟩ rfl (by decide) (by decide)).1 (by decide),
   by decide,
   ((etzpc_secure_ranges ns_upper_half all_ok (boot_world (mem_of ⟨⟨0, 0⟩, []⟩))).2.2.1
      ⟨0x2FFE0000, 0x20000⟩ rfl (by decide) (by decide)).1 (by decide),
   by decide,
   (etzpc_secure_ranges all_secure_sysram all_ok (boot_world (mem_of ⟨⟨0, 0⟩, []⟩))).2.1 rfl,
   (etzpc_secure_ranges stm32mp15 all_ok (boot_world (mem_of ⟨⟨0, 0⟩, []⟩))).2.2.2.2.1 rfl⟩

/-- Claim C10, counterexample: a layout of 32-bit constants with
`STM32MP_NS_SYSRAM_BASE == STM32MP_SYSRAM_BASE` (non-secure region over the whole
bank, overlapping the secure region) satisfies all three assertions, and the macro
wraps to `0xFFFFFFFF`, far above the 64 granules of the bank. -/
theorem tzma1_wraps_at_bank_base :
    layout_is_u32 ns_at_bank_base ⟨0x2FFC0000, 0x40000⟩ ∧
    assert_secure_sysram_fits_at_begining_of_sysram ns_at_bank_base ∧
    assert_non_secure_sysram_fits_at_end_of_sysram ns_at_bank_base ⟨0x2FFC0000, 0x40000⟩ ∧
    assert_non_secure_sysram_base_is_4kbyte_aligned ⟨0x2FFC0000, 0x40000⟩ ∧
    TZMA1_SECURE_RANGE ns_at_bank_base = 0xFFFFFFFF ∧
    ¬ (TZMA1_SECURE_RANGE ns_at_bank_base < ns_at_bank_base.STM32MP_SYSRAM_SIZE / 4096) := by
  refine ⟨by decide, by decide, by decide, by decide, by decide, by decide⟩

/-- Claim C10 (amended): for a layout of 32-bit constants that satisfies the three
build-time assertions, whose non-secure region does not run past the 32-bit
address space and whose non-secure base lies at least one 4 KiB granule above the
bank base, the macro does not wrap: its value is
`(STM32MP_NS_SYSRAM_BASE - STM32MP_SYSRAM_BASE) / 4096 - 1` as a plain integer and
is strictly less than the number of 4 KiB granules in the bank. -/
theorem tzma1_no_wrap (p : platform_def) (ns : ns_sysram) (hns : p.NS_SYSRAM = some ns)
    (hu : layout_is_u32 p ns)
    (_h1 : assert_secure_sysram_fits_at_begining_of_sysram p)
    (h2 : assert_non_secure_sysram_fits_at_end_of_sysram p ns)
    (_h3 : assert_non_secure_sysram_base_is_4kbyte_aligned ns)
    (hend : ns.STM32MP_NS_SYSRAM_BASE + ns.STM32MP_NS_SYSRAM_SIZE < 2 ^ 32)
    (hgran : p.STM32MP_SYSRAM_BASE + 4096 ≤ ns.STM32MP_NS_SYSRAM_BASE) :
    ((TZMA1_SECURE_RANGE p : Nat) : Int) =
      ((ns.STM32MP_NS_SYSRAM_BASE : Int) - p.STM32MP_SYSRAM_BASE) / 4096 - 1 ∧
    TZMA1_SECURE_RANGE p < p.STM32MP_SYSRAM_SIZE / 4096 := by
  obtain ⟨hb, hs, _, _, hnb, hnsz⟩ := hu
  obtain ⟨_, hsum⟩ := h2
  rw [tzma1_exact p ns hns hnb hgran]
  unfold u32_add at hsum
  norm_num at hb hs hnb hnsz hend hsum
  constructor
  · omega
  · omega

/-- The STM32MP15 layout passes the three assertions; the range value is 62,
below the 64 granules of the bank. -/
theorem tzma1_no_wrap_witness :
    (assert_secure_sysram_fits_at_begining_of_sysram stm32mp15 ∧
     assert_non_secure_sysram_fits_at_end_of_sysram stm32mp15 ⟨0x2FFFF000, 0x1000⟩ ∧
     assert_non_secure_sysram_base_is_4kbyte_aligned ⟨0x2FFFF000, 0x1000⟩) ∧
    ((TZMA1_SECURE_RANGE stm32mp15 : Nat) : Int) = ((0x2FFFF000 : Int) - 0x2FFC0000) / 4096 - 1 ∧
    TZMA1_SECURE_RANGE stm32mp15 < 0x40000 / 4096 :=
  ⟨by decide,
   tzma1_no_wrap stm32mp15 ⟨0x2FFFF000, 0x1000⟩ rfl (by decide) (by decide) (by decide)
    (by decide) (by decide) (by decide)⟩

/-! ## Secure peripheral initialisation -/

/-- The run of `init_sec_peripherals`, case by case. -/
theorem init_sec_run (p : platform_def) (c : Collab) (w : World) :
    init_sec_peripherals p c w =
      if c.stm32_tamp_init > 0 ∧
          (c.stm32_tamp_set_secure_bkpregs < 0 ∨ c.stm32_tamp_set_config < 0) then
        Res.halt { w with trace := w.trace ++ sec_events p c }
      else
        Res.ok () { w with trace := w.trace ++ sec_events p c } := by
  by_cases h1 : c.stm32_rtc_init < 0 <;> by_cases h2 : c.stm32_rng_init < 0 <;>
  by_cases h3 : c.stm32_tamp_init > 0 <;>
  by_cases h4 : c.stm32_tamp_set_secure_bkpregs < 0 <;>
  by_cases h5 : c.stm32_tamp_set_config < 0 <;>
  simp [init_sec_peripherals, bind_run, M.bind, call, WARN, panic, pure_run, sec_events,
    sec_probe_events, sec_tamper_events, h1, h2, h3, h4, h5]

theorem sec_probe_events_clean (c : Collab) :
    ∀ e ∈ sec_probe_events c, e.is_tamper_setup = false ∧ e.is_bkpregs_config = false ∧
      e.is_tamper_source_config = false ∧ e ≠ Event.stm32mp_lock_periph_registering ∧
      e ≠ Event.stm32mp1_init_scmi_server := by
  unfold sec_probe_events
  by_cases h1 : c.stm32_rtc_init < 0 <;> by_cases h2 : c.stm32_rng_init < 0 <;>
  simp [h1, h2, Event.is_tamper_setup, Event.is_bkpregs_config, Event.is_tamper_source_config]

theorem sec_tamper_events_clean (p : platform_def) (c : Collab) :
    ∀ e ∈ sec_tamper_events p c, e.is_bkpregs_config = false ∧
      e ≠ Event.stm32mp_lock_periph_registering ∧ e ≠ Event.stm32mp1_init_scmi_server := by
  unfold sec_tamper_events
  by_cases h4 : c.stm32_tamp_set_secure_bkpregs < 0 <;>
  by_cases h5 : c.stm32_tamp_set_config < 0 <;>
  simp [h4, h5, Event.is_bkpregs_config]

theorem init_sec_events (p : platform_def) (c : Collab) (w : World) :
    (init_sec_peripherals p c w).events w = sec_events p c := by
  rw [init_sec_run]
  split_ifs <;> simp [Res.events, Res.world]

theorem init_sec_halted (p : platform_def) (c : Collab) (w : World) :
    (init_sec_peripherals p c w).halted = decide (c.stm32_tamp_init > 0 ∧
      (c.stm32_tamp_set_secure_bkpregs < 0 ∨ c.stm32_tamp_set_config < 0)) := by
  rw [init_sec_run]
  split_ifs with h <;> simp [Res.halted, h]

theorem init_sec_returned (p : platform_def) (c : Collab) (w : World) :
    (init_sec_peripherals p c w).returned = !decide (c.stm32_tamp_init > 0 ∧
      (c.stm32_tamp_set_secure_bkpregs < 0 ∨ c.stm32_tamp_set_config < 0)) := by
  rw [init_sec_run]
  split_ifs with h <;> simp [Res.returned, h]

/-- Claim C9: in every run of `init_sec_peripherals`, whatever the drivers return,
the RTC, RNG and tamper probes are all made (RTC and RNG failures do not stop the
sequence). If the tamper probe reports no controller, the function returns and no
backup-register, secure-access, tamper-source or commit call is made. If it
reports one, the trace holds the backup register zone call exactly once, with no
tamper source registered before it; if that call is rejected the run halts right
there; otherwise the four tamper sources and the commit follow, and the run halts
if the commit is rejected and returns if it is accepted. -/
theorem init_sec_peripherals_order (p : platform_def) (c : Collab) (w : World) :
    (Event.stm32_rtc_init ∈ (init_sec_peripherals p c w).events w ∧
     Event.stm32_rng_init ∈ (init_sec_peripherals p c w).events w ∧
     Event.stm32_tamp_init ∈ (init_sec_peripherals p c w).events w) ∧
    (c.stm32_tamp_init ≤ 0 →
      (init_sec_peripherals p c w).returned = true ∧
      ∀ e ∈ (init_sec_peripherals p c w).events w, e.is_tamper_setup = false) ∧
    (0 < c.stm32_tamp_init →
      ∃ pre post : List Event,
        (init_sec_peripherals p c w).events w =
          pre ++ Event.stm32_tamp_set_secure_bkpregs p.TAMP_BKP_SEC_NUMBER 0 :: post ∧
        (∀ e ∈ pre, e.is_bkpregs_config = false ∧ e.is_tamper_source_config = false) ∧
        (∀ e ∈ post, e.is_bkpregs_config = false) ∧
        (c.stm32_tamp_set_secure_bkpregs < 0 →
          (init_sec_peripherals p c w).halted = true ∧ post = []) ∧
        (0 ≤ c.stm32_tamp_set_secure_bkpregs →
          Event.stm32_tamp_configure_internal p.INT_TAMP1 p.TAMP_ENABLE
            .stm32mp1_tamper_action ∈ post ∧
          Event.stm32_tamp_configure_internal p.INT_TAMP2 p.TAMP_ENABLE
            .stm32mp1_tamper_action ∈ post ∧
          Event.stm32_tamp_configure_internal p.INT_TAMP3 p.TAMP_ENABLE
            .stm32mp1_tamper_action ∈ post ∧
          Event.stm32_tamp_configure_internal p.INT_TAMP4 p.TAMP_ENABLE
            .stm32mp1_tamper_action ∈ post ∧
          Event.stm32_tamp_set_config ∈ post ∧
          (c.stm32_tamp_set_config < 0 →
            (init_sec_peripherals p c w).halted = true ∧
            Event.stm32_rtc_set_tamper_timestamp ∉ post) ∧
          (0 ≤ c.stm32_tamp_set_config → (init_sec_peripherals p c w).returned = true))) := by
  rw [init_sec_events, init_sec_halted, init_sec_returned]
  refine ⟨?_, ?_, ?_⟩
  · unfold sec_events sec_probe_events
    simp
  · intro h
    have h3 : ¬ c.stm32_tamp_init > 0 := by omega
    refine ⟨by simp [h3], ?_⟩
    intro e he
    simp only [sec_events, h3, if_false, List.append_nil] at he
    exact (sec_probe_events_clean c e he).1
  · intro h
    have h3 : c.stm32_tamp_init > 0 := h
    refine ⟨sec_probe_events c, sec_tamper_events p c, ?_, ?_, ?_, ?_, ?_⟩
    · simp [sec_events, h3]
    · intro e he
      exact ⟨(sec_probe_events_clean c e he).2.1, (sec_probe_events_clean c e he).2.2.1⟩
    · intro e he
      exact (sec_tamper_events_clean p c e he).1
    · intro h4
      simp [h3, h4, sec_tamper_events]
    · intro h4
      have h4n : ¬ c.stm32_tamp_set_secure_bkpregs < 0 := by omega
      by_cases h5 : c.stm32_tamp_set_config < 0
      · simp [h3, h4n, h5, sec_tamper_events]
      · have h5p : 0 ≤ c.stm32_tamp_set_config := by omega
        simp [h3, h4n, h5, h5p, sec_tamper_events]

/-- With a tamper controller present and every driver succeeding, the backup
register zones are set once, before any tamper source, and the function returns. -/
theorem init_sec_peripherals_order_witness :
    (0 : Int) < all_ok.stm32_tamp_init ∧
    Event.stm32_tamp_set_secure_bkpregs 10 0 ∈
      (init_sec_peripherals stm32mp15 all_ok (boot_world (mem_of ⟨⟨0, 0⟩, []⟩))).events
        (boot_world (mem_of ⟨⟨0, 0⟩, []⟩)) ∧
    (init_sec_peripherals stm32mp15 all_ok (boot_world (mem_of ⟨⟨0, 0⟩, []⟩))).returned =
      true := by
  refine ⟨by decide, ?_⟩
  obtain ⟨pre, post, h1, _, _, _, h5⟩ :=
    (init_sec_peripherals_order stm32mp15 all_ok (boot_world (mem_of ⟨⟨0, 0⟩, []⟩))).2.2
      (by decide)
  refine ⟨?_, (h5 (by decide)).2.2.2.2.2.2 (by decide)⟩
  rw [h1]
  exact List.mem_append_right _ (List.mem_cons_self _ _)

/-! ## Platform setup -/

/-- The run of `sp_min_platform_setup`, case by case. -/
theorem platform_setup_run (p : platform_def) (c : Collab) (w : World) :
    sp_min_platform_setup p c w =
      if c.stm32_tamp_init > 0 ∧
          (c.stm32_tamp_set_secure_bkpregs < 0 ∨ c.stm32_tamp_set_config < 0) then
        Res.halt { w with trace := w.trace ++ Event.stm32mp_gic_init :: sec_events p c }
      else if c.stm32_iwdg_init < 0 then
        Res.halt { w with trace := w.trace ++ Event.stm32mp_gic_init ::
          (sec_events p c ++ [Event.stm32_iwdg_init]) }
      else
        Res.ok () { w with trace := w.trace ++ Event.stm32mp_gic_init ::
          (sec_events p c ++ [Event.stm32_iwdg_init, Event.stm32mp_lock_periph_registering,
            Event.stm32mp1_init_scmi_server, Event.regulator_core_cleanup]) } := by
  by_cases h1 : c.stm32_tamp_init > 0 ∧
      (c.stm32_tamp_set_secure_bkpregs < 0 ∨ c.stm32_tamp_set_config < 0) <;>
  by_cases h2 : c.stm32_iwdg_init < 0 <;>
  simp [sp_min_platform_setup, bind_run, M.bind, call, init_sec_run, h1, h2, panic]

theorem sec_events_clean (p : platform_def) (c : Collab) :
    Event.stm32mp_lock_periph_registering ∉ sec_events p c ∧
    Event.stm32mp1_init_scmi_server ∉ sec_events p c := by
  have hp := sec_probe_events_clean c
  have ht := sec_tamper_events_clean p c
  constructor
  · intro hmem
    unfold sec_events at hmem
    rcases List.mem_append.1 hmem with h | h
    · exact (hp _ h).2.2.2.1 rfl
    · split_ifs at h
      · rcases List.mem_cons.1 h with h | h
        · cases h
        · exact (ht _ h).2.1 rfl
      · cases h
  · intro hmem
    unfold sec_events at hmem
    rcases List.mem_append.1 hmem with h | h
    · exact (hp _ h).2.2.2.2 rfl
    · split_ifs at h
      · rcases List.mem_cons.1 h with h | h
        · cases h
        · exact (ht _ h).2.2 rfl
      · cases h

/-- Claim C8: in every run of `sp_min_platform_setup`, whatever the drivers
return: if the peripheral-security lock is reached at all, then the run is
`stm32mp_gic_init`, all of `init_sec_peripherals` (which returned), a successful
`stm32_iwdg_init`, the lock, `stm32mp1_init_scmi_server`,
`regulator_core_cleanup`, in this order, the lock and the server start occurring
nowhere else; the server start is never reached without the lock; if the watchdog
cannot be armed the run halts with neither the lock nor the server start; and when
the secure peripheral init returns and the watchdog is armed, the run returns with
both performed. -/
theorem platform_setup_order (p : platform_def) (c : Collab) (w : World) :
    (Event.stm32mp_lock_periph_registering ∈ (sp_min_platform_setup p c w).events w →
      (sp_min_platform_setup p c w).events w =
        Event.stm32mp_gic_init ::
          ((init_sec_peripherals p c (after_gic_init w)).events (after_gic_init w) ++
            [Event.stm32_iwdg_init, Event.stm32mp_lock_periph_registering,
             Event.stm32mp1_init_scmi_server, Event.regulator_core_cleanup]) ∧
      Event.stm32mp_lock_periph_registering ∉
        (init_sec_peripherals p c (after_gic_init w)).events (after_gic_init w) ∧
      Event.stm32mp1_init_scmi_server ∉
        (init_sec_peripherals p c (after_gic_init w)).events (after_gic_init w) ∧
      (init_sec_peripherals p c (after_gic_init w)).returned = true ∧
      0 ≤ c.stm32_iwdg_init) ∧
    (Event.stm32mp1_init_scmi_server ∈ (sp_min_platform_setup p c w).events w →
      Event.stm32mp_lock_periph_registering ∈ (sp_min_platform_setup p c w).events w) ∧
    (c.stm32_iwdg_init < 0 →
      (sp_min_platform_setup p c w).halted = true ∧
      Event.stm32mp_lock_periph_registering ∉ (sp_min_platform_setup p c w).events w ∧
      Event.stm32mp1_init_scmi_server ∉ (sp_min_platform_setup p c w).events w) ∧
    ((init_sec_peripherals p c (after_gic_init w)).returned = true → 0 ≤ c.stm32_iwdg_init →
      (sp_min_platform_setup p c w).returned = true ∧
      Event.stm32mp_lock_periph_registering ∈ (sp_min_platform_setup p c w).events w ∧
      Event.stm32mp1_init_scmi_server ∈ (sp_min_platform_setup p c w).events w) := by
  obtain ⟨hlock, hscmi⟩ := sec_events_clean p c
  rw [init_sec_events, init_sec_returned, platform_setup_run]
  by_cases h1 : c.stm32_tamp_init > 0 ∧
      (c.stm32_tamp_set_secure_bkpregs < 0 ∨ c.stm32_tamp_set_config < 0)
  · rw [if_pos h1]
    simp [Res.events, Res.world, Res.halted, Res.returned, hlock, hscmi, h1]
  · rw [if_neg h1]
    by_cases h2 : c.stm32_iwdg_init < 0
    · rw [if_pos h2]
      have h2n : ¬ 0 ≤ c.stm32_iwdg_init := by omega
      simp [Res.events, Res.world, Res.halted, Res.returned, hlock, hscmi, h2, h2n]
    · rw [if_neg h2]
      have h2p : 0 ≤ c.stm32_iwdg_init := by omega
      simp [Res.events, Res.world, Res.halted, Res.returned, hlock, hscmi, h1, h2, h2p]

/-- With every driver succeeding the platform setup returns and performs the
lock and the server start. -/
theorem platform_setup_order_witness :
    (0 : Int) ≤ all_ok.stm32_iwdg_init ∧
    (sp_min_platform_setup stm32mp15 all_ok (boot_world (mem_of ⟨⟨0, 0⟩, []⟩))).returned = true ∧
    Event.stm32mp_lock_periph_registering ∈
      (sp_min_platform_setup stm32mp15 all_ok (boot_world (mem_of ⟨⟨0, 0⟩, []⟩))).events
        (boot_world (mem_of ⟨⟨0, 0⟩, []⟩)) ∧
    Event.stm32mp1_init_scmi_server ∈
      (sp_min_platform_setup stm32mp15 all_ok (boot_world (mem_of ⟨⟨0, 0⟩, []⟩))).events
        (boot_world (mem_of ⟨⟨0, 0⟩, []⟩)) :=
  ⟨by decide,
   (platform_setup_order stm32mp15 all_ok (boot_world (mem_of ⟨⟨0, 0⟩, []⟩))).2.2.2
     (by rw [init_sec_returned]; decide) (by decide)⟩

/-! ## Early platform setup -/

theorem Keeps.call (e : Event) : Keeps (call e) := by
  intro w; exact ⟨rfl, rfl, rfl, rfl⟩

theorem Keeps.ERROR (fmt : String) (args : List LogArg) : Keeps (ERROR fmt args) :=
  Keeps.call _

theorem Keeps.WARN (fmt : String) (args : List LogArg) : Keeps (WARN fmt args) :=
  Keeps.call _

theorem Keeps.panic {α : Type} : Keeps (panic : M α) := by
  intro w; exact ⟨rfl, rfl, rfl, rfl⟩

theorem Keeps.pure {α : Type} (a : α) : Keeps (pure a : M α) := by
  intro w; exact ⟨rfl, rfl, rfl, rfl⟩

theorem Keeps.bind {α β : Type} (m : M α) (f : α → M β) (hm : Keeps m)
    (hf : ∀ a, Keeps (f a)) : Keeps (m >>= f) := by
  intro w
  obtain ⟨h1, h2, h3, h4⟩ := hm w
  rw [bind_run]
  unfold M.bind
  cases hr : m w with
  | ok a w1 =>
    rw [hr] at h2 h3 h4
    obtain ⟨g1, g2, g3, g4⟩ := hf a w1
    exact ⟨g1, g2.trans h2, g3.trans h3, g4.trans h4⟩
  | halt w1 =>
    rw [hr] at h2 h3 h4
    exact ⟨rfl, h2, h3, h4⟩
  | fault w1 =>
    rw [hr] at h1
    cases h1

theorem Keeps.ite {α : Type} (c : Prop) [Decidable c] (m1 m2 : M α) (h1 : Keeps m1)
    (h2 : Keeps m2) : Keeps (if c then m1 else m2) := by
  split_ifs
  · exact h1
  · exact h2

theorem keeps_etzpc (p : platform_def) (c : Collab) : Keeps (stm32mp1_etzpc_early_setup p c) := by
  unfold stm32mp1_etzpc_early_setup
  repeat' first
    | exact Keeps.call _
    | exact Keeps.panic
    | exact Keeps.pure _
    | apply Keeps.bind
    | apply Keeps.ite
    | intro _

theorem keeps_disable_usb (c : Collab) : Keeps (disable_usb_phy_regulator c) := by
  unfold disable_usb_phy_regulator
  repeat' first
    | exact Keeps.call _
    | exact Keeps.WARN _ _
    | exact Keeps.panic
    | exact Keeps.pure _
    | apply Keeps.bind
    | apply Keeps.ite
    | intro _

/-- The function `sp_min_early_platform_setup2` is its first part, up to the walk
of the handoff list, followed by `early_setup_rest`. -/
theorem early_setup_split (p : platform_def) (c : Collab) (arg0 arg1 arg2 arg3 : Nat) :
    sp_min_early_platform_setup2 p c arg0 arg1 arg2 arg3 = (do
      call .stm32mp_setup_early_console
      let scr ← read_scr
      write_scr (scr ||| p.SCR_AW_BIT)
      call (.mmap_add_region p.BL_CODE_BASE p.BL_CODE_BASE
        (u32_sub p.BL_CODE_END p.BL_CODE_BASE) (p.MT_CODE ||| p.MT_SECURE))
      call .configure_mmu
      assert (arg0 != 0)
      let params_from_bl2 ← read_bl_params arg0
      assert (params_from_bl2.h.type == p.PARAM_BL_PARAMS)
      assert (decide (params_from_bl2.h.version ≥ p.VERSION_2))
      copy_bl33_ep_info p arg2 params_from_bl2.head
      early_setup_rest p c (if p.STM32MP_USE_STM32IMAGE then p.STM32MP_DTB_BASE else arg1)) :=
  rfl

theorem keeps_early_setup_rest (p : platform_def) (c : Collab) (dt_addr : Nat) :
    Keeps (early_setup_rest p c dt_addr) := by
  unfold early_setup_rest
  repeat' first
    | exact Keeps.call _
    | exact Keeps.ERROR _ _
    | exact Keeps.panic
    | exact Keeps.pure _
    | exact keeps_etzpc _ _
    | exact keeps_disable_usb _
    | apply Keeps.bind
    | apply Keeps.ite
    | intro _

/-- When every fatal check passes, the rest of the early setup returns. -/
theorem early_setup_rest_returns (p : platform_def) (c : Collab) (dt_addr : Nat) (w : World)
    (h1 : 0 ≤ c.dt_open_and_check) (h2 : c.bsec_probe = 0) (h3 : 0 ≤ c.stm32mp1_clk_probe)
    (h4 : c.etzpc_init = 0) (h5 : c.regulator_core_config = 0) :
    (early_setup_rest p c dt_addr w).returned = true := by
  have g1 : ¬ c.dt_open_and_check < 0 := by omega
  have g3 : ¬ c.stm32mp1_clk_probe < 0 := by omega
  by_cases k1 : c.dt_pmic_status > 0 <;> by_cases k2 : c.usb_dt_pmic_status > 0 <;>
  by_cases k3 : c.usb_phy_regulator_is_null = true <;>
  by_cases k4 : c.regulator_is_enabled = 1 <;>
  by_cases k5 : c.regulator_disable < 0 <;>
  simp [early_setup_rest, stm32mp1_etzpc_early_setup, disable_usb_phy_regulator, bind_run,
    M.bind, call, WARN, pure_run, Res.returned, g1, h2, g3, h4, h5, k1, k2, k3, k4, k5]

theorem copy_bl33_run (p : platform_def) (arg2 : Nat) (nodes : List bl_params_node)
    (w : World) :
    copy_bl33_ep_info p arg2 nodes w =
      Res.ok () { w with bl33_image_ep_info := published p arg2 nodes w.bl33_image_ep_info } := by
  induction nodes with
  | nil => rfl
  | cons n rest ih =>
    unfold copy_bl33_ep_info published
    by_cases h : n.image_id = p.BL33_IMAGE_ID
    · by_cases h2 : arg2 = 0
      · simp [h, h2, bind_run, M.bind, set_bl33_image_ep_info, pure_run]
      · simp [h, h2, bind_run, M.bind, set_bl33_image_ep_info, get_bl33_image_ep_info]
    · rw [if_neg h, if_neg h]
      exact ih

theorem published_none (p : platform_def) (arg2 : Nat) (nodes : List bl_params_node)
    (cur : entry_point_info) (h : ∀ m ∈ nodes, m.image_id ≠ p.BL33_IMAGE_ID) :
    published p arg2 nodes cur = cur := by
  induction nodes with
  | nil => rfl
  | cons n rest ih =>
    unfold published
    rw [if_neg (h n (List.mem_cons_self _ _))]
    exact ih (fun m hm => h m (List.mem_cons_of_mem _ hm))

theorem published_one (p : platform_def) (arg2 : Nat) (pre post : List bl_params_node)
    (n : bl_params_node) (cur : entry_point_info)
    (hpre : ∀ m ∈ pre, m.image_id ≠ p.BL33_IMAGE_ID) (hn : n.image_id = p.BL33_IMAGE_ID) :
    published p arg2 (pre ++ n :: post) cur =
      if arg2 ≠ 0 then
        { n.ep_info with args := { n.ep_info.args with arg0 := 0, arg1 := 0, arg2 := arg2 } }
      else n.ep_info := by
  induction pre with
  | nil => simp [published, hn]
  | cons m rest ih =>
    rw [List.cons_append]
    unfold published
    rw [if_neg (hpre m (List.mem_cons_self _ _))]
    exact ih (fun k hk => hpre k (List.mem_cons_of_mem _ hk))

/-- With a well-formed handoff block the early setup is the rest of the setup run
from the state that the console, `SCR`, MMU steps and the list walk leave. -/
theorem early_setup_valid_run (p : platform_def) (c : Collab) (arg0 arg1 arg2 arg3 : Nat)
    (w : World) (h0 : arg0 ≠ 0) (ht : (w.bl2_mem arg0).h.type = p.PARAM_BL_PARAMS)
    (hv : p.VERSION_2 ≤ (w.bl2_mem arg0).h.version) :
    sp_min_early_platform_setup2 p c arg0 arg1 arg2 arg3 w =
      early_setup_rest p c (if p.STM32MP_USE_STM32IMAGE then p.STM32MP_DTB_BASE else arg1)
        { w with
          bl33_image_ep_info :=
            published p arg2 (w.bl2_mem arg0).head w.bl33_image_ep_info
          scr := w.scr ||| p.SCR_AW_BIT
          trace := w.trace ++ early_setup_first_events p w } := by
  rw [early_setup_split]
  simp [bind_run, M.bind, call, read_scr, write_scr, assert, read_bl_params, h0, ht, hv,
    copy_bl33_run, early_setup_first_events]

/-- With a malformed handoff block the early setup halts at the checks. -/
theorem early_setup_malformed_run (p : platform_def) (c : Collab) (arg0 arg1 arg2 arg3 : Nat)
    (w : World)
    (hbad : arg0 = 0 ∨ (w.bl2_mem arg0).h.type ≠ p.PARAM_BL_PARAMS ∨
      (w.bl2_mem arg0).h.version < p.VERSION_2) :
    sp_min_early_platform_setup2 p c arg0 arg1 arg2 arg3 w =
      Res.halt { w with
        scr := w.scr ||| p.SCR_AW_BIT
        trace := w.trace ++ early_setup_first_events p w } := by
  rw [early_setup_split]
  by_cases h0 : arg0 = 0
  · simp [bind_run, M.bind, call, read_scr, write_scr, assert, h0, early_setup_first_events]
  · by_cases ht : (w.bl2_mem arg0).h.type = p.PARAM_BL_PARAMS
    · have hv : ¬ p.VERSION_2 ≤ (w.bl2_mem arg0).h.version := by
        rcases hbad with h | h | h
        · exact absurd h h0
        · exact absurd ht h
        · omega
      simp [bind_run, M.bind, call, read_scr, write_scr, assert, read_bl_params, h0, ht, hv,
        early_setup_first_events]
    · simp [bind_run, M.bind, call, read_scr, write_scr, assert, read_bl_params, h0, ht,
        early_setup_first_events]

theorem get_bl33_null (w : World) (h : w.bl33_image_ep_info.pc = 0) :
    sp_min_plat_get_bl33_ep_info w = Res.ok none w := by
  simp [sp_min_plat_get_bl33_ep_info, bind_run, M.bind, get_bl33_image_ep_info, h, pure_run]

theorem get_bl33_pointer (w : World) (h : w.bl33_image_ep_info.pc ≠ 0) :
    sp_min_plat_get_bl33_ep_info w = Res.ok (some w.bl33_image_ep_info) w := by
  simp [sp_min_plat_get_bl33_ep_info, bind_run, M.bind, get_bl33_image_ep_info, h, pure_run]

/-- Claim C1: for a well-formed handoff block (non-null, type `PARAM_BL_PARAMS`,
version at least `VERSION_2`) whose list holds exactly one BL33 node, for every
`arg2` and whatever the drivers return, the state that
`sp_min_early_platform_setup2` leaves has `bl33_image_ep_info.pc` equal to the
node's `pc`; with `arg2` non-zero the published `args.arg0` and `args.arg1` are 0
and `args.arg2` is `arg2`, the other fields being the node's; with `arg2` zero
the whole record is the node's; the BL2
memory, and so the source node, is unchanged; and the function returns whenever
no fatal driver check fails. -/
theorem early_setup_publishes_bl33 (p : platform_def) (c : Collab)
    (arg0 arg1 arg2 arg3 : Nat) (w : World) (pre post : List bl_params_node)
    (n : bl_params_node)
    (h0 : arg0 ≠ 0) (ht : (w.bl2_mem arg0).h.type = p.PARAM_BL_PARAMS)
    (hv : p.VERSION_2 ≤ (w.bl2_mem arg0).h.version)
    (hlist : (w.bl2_mem arg0).head = pre ++ n :: post)
    (hn : n.image_id = p.BL33_IMAGE_ID)
    (hpre : ∀ m ∈ pre, m.image_id ≠ p.BL33_IMAGE_ID)
    (_hpost : ∀ m ∈ post, m.image_id ≠ p.BL33_IMAGE_ID) :
    (sp_min_early_platform_setup2 p c arg0 arg1 arg2 arg3 w).world.bl33_image_ep_info.pc =
      n.ep_info.pc ∧
    (arg2 ≠ 0 →
      (sp_min_early_platform_setup2 p c arg0 arg1 arg2 arg3 w).world.bl33_image_ep_info.args.arg0
        = 0 ∧
      (sp_min_early_platform_setup2 p c arg0 arg1 arg2 arg3 w).world.bl33_image_ep_info.args.arg1
        = 0 ∧
      (sp_min_early_platform_setup2 p c arg0 arg1 arg2 arg3 w).world.bl33_image_ep_info.args.arg2
        = arg2 ∧
      (sp_min_early_platform_setup2 p c arg0 arg1 arg2 arg3 w).world.bl33_image_ep_info =
        ⟨n.ep_info.pc, n.ep_info.spsr, ⟨0, 0, arg2, n.ep_info.args.arg3⟩⟩) ∧
    (arg2 = 0 →
      (sp_min_early_platform_setup2 p c arg0 arg1 arg2 arg3 w).world.bl33_image_ep_info =
        n.ep_info) ∧
    (sp_min_early_platform_setup2 p c arg0 arg1 arg2 arg3 w).world.bl2_mem = w.bl2_mem ∧
    (sp_min_early_platform_setup2 p c arg0 arg1 arg2 arg3 w).world.bl2_mem arg0 =
      ⟨(w.bl2_mem arg0).h, pre ++ n :: post⟩ ∧
    (sp_min_early_platform_setup2 p c arg0 arg1 arg2 arg3 w).faulted = false ∧
    (0 ≤ c.dt_open_and_check → c.bsec_probe = 0 → 0 ≤ c.stm32mp1_clk_probe →
      c.etzpc_init = 0 → c.regulator_core_config = 0 →
      (sp_min_early_platform_setup2 p c arg0 arg1 arg2 arg3 w).returned = true) := by
  rw [early_setup_valid_run p c arg0 arg1 arg2 arg3 w h0 ht hv, hlist,
    published_one p arg2 pre post n _ hpre hn]
  obtain ⟨kf, kb, km, _⟩ := keeps_early_setup_rest p c
    (if p.STM32MP_USE_STM32IMAGE then p.STM32MP_DTB_BASE else arg1)
    { w with
      bl33_image_ep_info :=
        if arg2 ≠ 0 then
          { n.ep_info with args := { n.ep_info.args with arg0 := 0, arg1 := 0, arg2 := arg2 } }
        else n.ep_info
      scr := w.scr ||| p.SCR_AW_BIT
      trace := w.trace ++ early_setup_first_events p w }
  rw [kb, km]
  refine ⟨?_, ?_, ?_, rfl, ?_, kf, ?_⟩
  · by_cases h2 : arg2 = 0 <;> simp [h2]
  · intro h2
    simp [h2]
  · intro h2
    simp [h2]
  · show w.bl2_mem arg0 = _
    rw [← hlist]
  · intro h1 h2 h3 h4 h5
    exact early_setup_rest_returns p c _ _ h1 h2 h3 h4 h5

/-- The end-to-end scenario with one matching entry: the entry
`{image_id = BL33, pc = 0x2FFC0000, args = [1, 2, 3]}` with `arg2 = 0x10000000`
publishes `pc = 0x2FFC0000` and `args = [0, 0, 0x10000000]`. -/
theorem early_setup_publishes_bl33_witness :
    (one_bl33_block.h.type = stm32mp15.PARAM_BL_PARAMS ∧
     stm32mp15.VERSION_2 ≤ one_bl33_block.h.version ∧
     one_bl33_block.head = [] ++ ⟨5, ⟨0x2FFC0000, 0, ⟨1, 2, 3, 0⟩⟩⟩ :: []) ∧
    (sp_min_early_platform_setup2 stm32mp15 all_ok 0x2FFC3000 0 0x10000000 0
      (boot_world (mem_of one_bl33_block))).world.bl33_image_ep_info.pc = 0x2FFC0000 ∧
    ((sp_min_early_platform_setup2 stm32mp15 all_ok 0x2FFC3000 0 0x10000000 0
        (boot_world (mem_of one_bl33_block))).world.bl33_image_ep_info.args.arg0 = 0 ∧
     (sp_min_early_platform_setup2 stm32mp15 all_ok 0x2FFC3000 0 0x10000000 0
        (boot_world (mem_of one_bl33_block))).world.bl33_image_ep_info.args.arg1 = 0 ∧
     (sp_min_early_platform_setup2 stm32mp15 all_ok 0x2FFC3000 0 0x10000000 0
        (boot_world (mem_of one_bl33_block))).world.bl33_image_ep_info.args.arg2 = 0x10000000 ∧
     (sp_min_early_platform_setup2 stm32mp15 all_ok 0x2FFC3000 0 0x10000000 0
        (boot_world (mem_of one_bl33_block))).world.bl33_image_ep_info =
       ⟨0x2FFC0000, 0, ⟨0, 0, 0x10000000, 0⟩⟩) ∧
    (sp_min_early_platform_setup2 stm32mp15 all_ok 0x2FFC3000 0 0x10000000 0
      (boot_world (mem_of one_bl33_block))).world.bl2_mem 0x2FFC3000 = one_bl33_block ∧
    (sp_min_early_platform_setup2 stm32mp15 all_ok 0x2FFC3000 0 0x10000000 0
      (boot_world (mem_of one_bl33_block))).returned = true := by
  have h := early_setup_publishes_bl33 stm32mp15 all_ok 0x2FFC3000 0 0x10000000 0
    (boot_world (mem_of one_bl33_block)) [] [] ⟨5, ⟨0x2FFC0000, 0, ⟨1, 2, 3, 0⟩⟩⟩
    (by decide) rfl (by decide) rfl rfl (by simp) (by simp)
  exact ⟨⟨rfl, by decide, rfl⟩, h.1, h.2.1 (by decide), h.2.2.2.2.1,
    h.2.2.2.2.2.2 (by decide) rfl (by decide) rfl rfl⟩

/-- Claim C2: for a well-formed handoff block whose list holds no BL33 node (the
empty list included), for every `arg2` and whatever the drivers return, starting
from the zero-initialised `bl33_image_ep_info`, `sp_min_plat_get_bl33_ep_info`
called on the state that `sp_min_early_platform_setup2` leaves returns NULL; the
setup itself returns whenever no fatal driver check fails. -/
theorem early_setup_without_bl33 (p : platform_def) (c : Collab)
    (arg0 arg1 arg2 arg3 : Nat) (w : World)
    (h0 : arg0 ≠ 0) (ht : (w.bl2_mem arg0).h.type = p.PARAM_BL_PARAMS)
    (hv : p.VERSION_2 ≤ (w.bl2_mem arg0).h.version)
    (hnone : ∀ m ∈ (w.bl2_mem arg0).head, m.image_id ≠ p.BL33_IMAGE_ID)
    (hz : w.bl33_image_ep_info = zero_ep_info) :
    sp_min_plat_get_bl33_ep_info
        (sp_min_early_platform_setup2 p c arg0 arg1 arg2 arg3 w).world =
      Res.ok none (sp_min_early_platform_setup2 p c arg0 arg1 arg2 arg3 w).world ∧
    (sp_min_early_platform_setup2 p c arg0 arg1 arg2 arg3 w).faulted = false ∧
    (0 ≤ c.dt_open_and_check → c.bsec_probe = 0 → 0 ≤ c.stm32mp1_clk_probe →
      c.etzpc_init = 0 → c.regulator_core_config = 0 →
      (sp_min_early_platform_setup2 p c arg0 arg1 arg2 arg3 w).returned = true) := by
  rw [early_setup_valid_run p c arg0 arg1 arg2 arg3 w h0 ht hv,
    published_none p arg2 _ _ hnone, hz]
  obtain ⟨kf, kb, _, _⟩ := keeps_early_setup_rest p c
    (if p.STM32MP_USE_STM32IMAGE then p.STM32MP_DTB_BASE else arg1)
    { w with
      bl33_image_ep_info := zero_ep_info
      scr := w.scr ||| p.SCR_AW_BIT
      trace := w.trace ++ early_setup_first_events p w }
  refine ⟨?_, kf, ?_⟩
  · apply get_bl33_null
    rw [kb]
    rfl
  · intro h1 h2 h3 h4 h5
    exact early_setup_rest_returns p c _ _ h1 h2 h3 h4 h5

/-- The end-to-end scenario with an empty handoff list: the accessor reports
NULL. -/
theorem early_setup_without_bl33_witness :
    (empty_block.h.type = stm32mp15.PARAM_BL_PARAMS ∧
     stm32mp15.VERSION_2 ≤ empty_block.h.version ∧ empty_block.head = []) ∧
    sp_min_plat_get_bl33_ep_info
        (sp_min_early_platform_setup2 stm32mp15 all_ok 0x2FFC3000 0 0 0
          (boot_world (mem_of empty_block))).world =
      Res.ok none (sp_min_early_platform_setup2 stm32mp15 all_ok 0x2FFC3000 0 0 0
        (boot_world (mem_of empty_block))).world :=
  ⟨⟨rfl, by decide, rfl⟩,
   (early_setup_without_bl33 stm32mp15 all_ok 0x2FFC3000 0 0 0
      (boot_world (mem_of empty_block)) (by decide) rfl (by decide) (by simp [mem_of,
        boot_world, empty_block]) rfl).1⟩

/-- Claim C3, counterexample: with a null `arg0` the early setup halts, but only
after the console setup, the `SCR` write, `mmap_add_region` and `configure_mmu`
have been performed. -/
theorem early_setup_null_halts_after_console :
    (sp_min_early_platform_setup2 stm32mp15 all_ok 0 0 0 0
      (boot_world (mem_of empty_block))).halted = true ∧
    (sp_min_early_platform_setup2 stm32mp15 all_ok 0 0 0 0
      (boot_world (mem_of empty_block))).events (boot_world (mem_of empty_block)) =
      [Event.stm32mp_setup_early_console, Event.write_scr 0x20,
       Event.mmap_add_region 0x2FFC5000 0x2FFC5000 0x13000 2, Event.configure_mmu] ∧
    (sp_min_early_platform_setup2 stm32mp15 all_ok 0 0 0 0
      (boot_world (mem_of empty_block))).world.scr = 0x20 := by
  rw [early_setup_malformed_run stm32mp15 all_ok 0 0 0 0 _ (Or.inl rfl)]
  refine ⟨rfl, ?_, ?_⟩
  · simp [Res.events, Res.world, boot_world, early_setup_first_events]
    decide
  · decide

/-- Claim C3 (amended): for every malformed handoff block (`arg0` null, or header
type not `PARAM_BL_PARAMS`, or header version below `VERSION_2`) and whatever the
drivers would return, `sp_min_early_platform_setup2` halts after exactly the
console setup, the `SCR` write, `mmap_add_region` and `configure_mmu`: no
device-tree, fuse, clock or ETZPC call is made, the handoff list is not walked and
`bl33_image_ep_info` is not written. -/
theorem early_setup_malformed_halts (p : platform_def) (c : Collab)
    (arg0 arg1 arg2 arg3 : Nat) (w : World)
    (hbad : arg0 = 0 ∨ (w.bl2_mem arg0).h.type ≠ p.PARAM_BL_PARAMS ∨
      (w.bl2_mem arg0).h.version < p.VERSION_2) :
    (sp_min_early_platform_setup2 p c arg0 arg1 arg2 arg3 w).halted = true ∧
    (sp_min_early_platform_setup2 p c arg0 arg1 arg2 arg3 w).events w =
      [Event.stm32mp_setup_early_console,
       Event.write_scr (w.scr ||| p.SCR_AW_BIT),
       Event.mmap_add_region p.BL_CODE_BASE p.BL_CODE_BASE
         (u32_sub p.BL_CODE_END p.BL_CODE_BASE) (p.MT_CODE ||| p.MT_SECURE),
       Event.configure_mmu] ∧
    (sp_min_early_platform_setup2 p c arg0 arg1 arg2 arg3 w).world.bl33_image_ep_info =
      w.bl33_image_ep_info ∧
    (sp_min_early_platform_setup2 p c arg0 arg1 arg2 arg3 w).world.bl2_mem = w.bl2_mem := by
  rw [early_setup_malformed_run p c arg0 arg1 arg2 arg3 w hbad]
  refine ⟨rfl, ?_, rfl, rfl⟩
  simp [Res.events, Res.world, early_setup_first_events]

/-- A handoff block of version 1 is rejected: the early setup halts. -/
theorem early_setup_malformed_halts_witness :
    ((⟨⟨5, 1⟩, []⟩ : bl_params).h.version < stm32mp15.VERSION_2) ∧
    (sp_min_early_platform_setup2 stm32mp15 all_ok 0x2FFC3000 0 0 0
      (boot_world (mem_of ⟨⟨5, 1⟩, []⟩))).halted = true :=
  ⟨by decide,
   (early_setup_malformed_halts stm32mp15 all_ok 0x2FFC3000 0 0 0
      (boot_world (mem_of ⟨⟨5, 1⟩, []⟩)) (Or.inr (Or.inr (by decide)))).1⟩

end Stm32mp1SpMin
